import Mathlib

/-!
# confkeeper-migrate: MySQL to PostgreSQL table migration

A shallow embedding of `migrator.go` and `main.go`.  The functions of the
program are written as pure functions over an explicit `World` (what the
program has done to the two databases and to its output streams) and an
`Env` (how the outside world answers: which database calls fail, which
rows the source cursor yields, what the wall clock reads).
-/

namespace ConfkeeperMigrate

/-! ## Configuration (`config.go`) -/

/-- MySQLConfig of `config.go`. -/
structure MySQLConfig where
  Host : String
  Port : Int
  Username : String
  Password : String
  Database : String
  Charset : String

/-- PostgreSQLConfig of `config.go`. -/
structure PostgreSQLConfig where
  Host : String
  Port : Int
  Username : String
  Password : String
  Database : String
  SSLMode : String

/-- SourceConfig of `config.go`; `Type_` is the Go field `Type`. -/
structure SourceConfig where
  Type_ : String
  MySQL : MySQLConfig

/-- TargetConfig of `config.go`; `Type_` is the Go field `Type`. -/
structure TargetConfig where
  Type_ : String
  PostgreSQL : PostgreSQLConfig

/-- MigrationConfig of `config.go`. -/
structure MigrationConfig where
  BatchSize : Int
  TimeoutSeconds : Int
  TenantNames : List String

/-- Config of `config.go`. -/
structure Config where
  Source : SourceConfig
  Target : TargetConfig
  Migration : MigrationConfig

/-! ## The database/sql view of the two stores -/

/-- A value bound to a placeholder of an insert statement, which is also
what the target column then holds. -/
inductive SqlValue where
  | null
  | text (s : String)
  | int (n : Int)
  | timestamp (t : Nat)
  deriving DecidableEq, Repr

/-- A row of a target table: the values of one executed insert. -/
abbrev TargetRow := List SqlValue

/-- The Go type `sql.NullString`. -/
structure NullString where
  String : String
  Valid : Bool
  deriving DecidableEq, Repr

/-- What `rows.Scan` stores into a `*sql.NullString` destination: a NULL
column leaves the zero string with `Valid = false`, a present column
stores its value with `Valid = true`. -/
def ScanNullString : Option String → NullString
  | none => ⟨"", false⟩
  | some s => ⟨s, true⟩

/-- A handle returned by `sql.Open(driverName, dataSourceName)`. -/
structure DBHandle where
  driverName : String
  dataSourceName : String
  deriving DecidableEq, Repr

/-- The database calls the program makes, in the order it makes them. -/
inductive Event where
  | sqlOpen (db : DBHandle)
  | ping (db : DBHandle)
  | dbClose (db : DBHandle)
  | query (q : String)
  | prepare (stmt : String)
  | txBegin
  | rowsNext
  | rowsScan
  | exec (stmt : String) (args : TargetRow)
  | rowsErr
  | txRollback
  | txCommit
  | stmtClose
  | rowsClose
  deriving DecidableEq, Repr

/-- One row of `SELECT tenant_id, tenant_name, tenant_desc FROM tenant_info`. -/
structure TenantSrcRow where
  tenant_id : Option String
  tenant_name : Option String
  tenant_desc : Option String
  deriving DecidableEq, Repr

/-- One row of `SELECT data_id, group_id, content, tenant_id, type FROM config_info`. -/
structure ConfigSrcRow where
  data_id : Option String
  group_id : Option String
  content : Option String
  tenant_id : Option String
  type : Option String
  deriving DecidableEq, Repr

/-- How the two stores answer during one table migration.  An error is the
text of the underlying Go error. -/
structure TableEnv (α : Type) where
  /-- result of `mysqlDB.Query` -/
  queryErr : Option String
  /-- result of `pgDB.Prepare` -/
  prepareErr : Option String
  /-- result of `pgDB.Begin` -/
  beginErr : Option String
  /-- the cursor: one entry for each time `rows.Next()` is true, holding
  what `rows.Scan` then returns -/
  rows : List (Except String α)
  /-- result of the insert `Exec` when `k` inserts already ran in the
  transaction -/
  execErr : Nat → Option String
  /-- result of `rows.Err()` once `rows.Next()` is false -/
  rowsErr : Option String
  /-- result of `tx.Commit` -/
  commitErr : Option String

/-- The outside world of one run. -/
structure Env where
  /-- result of `LoadConfig` for a file name -/
  loadConfig : String → Except String Config
  /-- result of `sql.Open` for a handle -/
  openErr : DBHandle → Option String
  /-- result of `Ping` on a handle -/
  pingErr : DBHandle → Option String
  /-- the reading of the wall clock after `n` database calls -/
  now : Nat → Nat
  tenant : TableEnv TenantSrcRow
  config : TableEnv ConfigSrcRow

/-- What the program has done so far. -/
structure World where
  /-- database calls made, oldest first -/
  trace : List Event
  /-- handles opened and not closed -/
  openDBs : List DBHandle
  /-- committed rows of the target table `tenant_info` -/
  tenant_info : List TargetRow
  /-- committed rows of the target table `config_info` -/
  config_info : List TargetRow
  /-- lines written through package `log` -/
  log : List String
  /-- lines written through `fmt.Println` -/
  stdout : List String
  deriving DecidableEq, Repr

/-- Record a database call. -/
def World.emit (w : World) (e : Event) : World :=
  { w with trace := w.trace ++ [e] }

/-- The calls `log.Println` and `log.Printf`. -/
def World.logLine (w : World) (s : String) : World :=
  { w with log := w.log ++ [s] }

/-- The call `fmt.Println`. -/
def World.println (w : World) (s : String) : World :=
  { w with stdout := w.stdout ++ [s] }

/-- The call `time.Now()`. -/
def timeNow (env : Env) (w : World) : Nat :=
  env.now w.trace.length

/-! ## Errors (`fmt.Errorf` values of `migrator.go`) -/

/-- The errors `migrator.go` builds; the argument is what `%s` or `%v`
prints. -/
inductive MigErr where
  | unsupportedSource (given : String)
  | unsupportedTarget (given : String)
  | mysqlOpen (cause : String)
  | mysqlPing (cause : String)
  | pgOpen (cause : String)
  | pgPing (cause : String)
  | queryTenant (cause : String)
  | queryConfig (cause : String)
  | prepareStmt (cause : String)
  | beginTx (cause : String)
  | scanRow (cause : String)
  | insertRow (cause : String)
  | cursor (cause : String)
  | commitTx (cause : String)
  deriving DecidableEq, Repr

/-- The message of an error, as `fmt.Errorf` formats it. -/
def MigErr.Error : MigErr → String
  | .unsupportedSource t => "不支持的数据源类型: " ++ t ++ "，目前只支持 mysql"
  | .unsupportedTarget t => "不支持的目标数据库类型: " ++ t ++ "，目前只支持 postgresql"
  | .mysqlOpen e => "连接MySQL失败: " ++ e
  | .mysqlPing e => "MySQL连接测试失败: " ++ e
  | .pgOpen e => "连接PostgreSQL失败: " ++ e
  | .pgPing e => "PostgreSQL连接测试失败: " ++ e
  | .queryTenant e => "查询MySQL tenant_info失败: " ++ e
  | .queryConfig e => "查询MySQL config_info失败: " ++ e
  | .prepareStmt e => "准备PostgreSQL插入语句失败: " ++ e
  | .beginTx e => "开始PostgreSQL事务失败: " ++ e
  | .scanRow e => "读取MySQL行数据失败: " ++ e
  | .insertRow e => "插入PostgreSQL数据失败: " ++ e
  | .cursor e => "读取MySQL数据时发生错误: " ++ e
  | .commitTx e => "提交PostgreSQL事务失败: " ++ e

/-! ## `NewMigrator` and `Close` -/

/-- Migrator of `migrator.go`; a nil `*sql.DB` is `none`. -/
structure Migrator where
  mysqlDB : Option DBHandle
  pgDB : Option DBHandle
  config : Config

/-- The MySQL data source name built by `fmt.Sprintf` in `NewMigrator`. -/
def mysqlDSN (config : Config) : String :=
  config.Source.MySQL.Username ++ ":" ++ config.Source.MySQL.Password ++ "@tcp("
    ++ config.Source.MySQL.Host ++ ":" ++ toString config.Source.MySQL.Port ++ ")/"
    ++ config.Source.MySQL.Database ++ "?charset=" ++ config.Source.MySQL.Charset
    ++ "&parseTime=true&loc=Local"

/-- The PostgreSQL data source name built by `fmt.Sprintf` in `NewMigrator`. -/
def pgDSN (config : Config) : String :=
  "host=" ++ config.Target.PostgreSQL.Host ++ " port=" ++ toString config.Target.PostgreSQL.Port
    ++ " user=" ++ config.Target.PostgreSQL.Username
    ++ " password=" ++ config.Target.PostgreSQL.Password
    ++ " dbname=" ++ config.Target.PostgreSQL.Database
    ++ " sslmode=" ++ config.Target.PostgreSQL.SSLMode

/-- The call `sql.Open`: on success the handle is open. -/
def sqlOpen (env : Env) (db : DBHandle) (w : World) : World × Option String :=
  let w := w.emit (.sqlOpen db)
  match env.openErr db with
  | some e => (w, some e)
  | none => ({ w with openDBs := w.openDBs ++ [db] }, none)

/-- The method `(*sql.DB).Ping`. -/
def dbPing (env : Env) (db : DBHandle) (w : World) : World × Option String :=
  (w.emit (.ping db), env.pingErr db)

/-- The method `(*sql.DB).Close`: the handle is no longer open. -/
def dbClose (db : DBHandle) (w : World) : World :=
  let w := w.emit (.dbClose db)
  { w with openDBs := w.openDBs.filter (fun h => h ≠ db) }

/-- NewMigrator of `migrator.go`. -/
def NewMigrator (env : Env) (config : Config) (w : World) : World × Except MigErr Migrator :=
  if config.Source.Type_ ≠ "mysql" then
    (w, .error (.unsupportedSource config.Source.Type_))
  else if config.Target.Type_ ≠ "postgresql" then
    (w, .error (.unsupportedTarget config.Target.Type_))
  else
    let mysqlDB : DBHandle := ⟨"mysql", mysqlDSN config⟩
    match sqlOpen env mysqlDB w with
    | (w, some err) => (w, .error (.mysqlOpen err))
    | (w, none) =>
      match dbPing env mysqlDB w with
      | (w, some err) => (w, .error (.mysqlPing err))
      | (w, none) =>
        let pgDB : DBHandle := ⟨"postgres", pgDSN config⟩
        match sqlOpen env pgDB w with
        | (w, some err) => (w, .error (.pgOpen err))
        | (w, none) =>
          match dbPing env pgDB w with
          | (w, some err) => (w, .error (.pgPing err))
          | (w, none) => (w, .ok { mysqlDB := some mysqlDB, pgDB := some pgDB, config := config })

/-- Close of `migrator.go`. -/
def Migrator.Close (m : Migrator) (w : World) : World :=
  let w := match m.mysqlDB with
    | some db => dbClose db w
    | none => w
  match m.pgDB with
  | some db => dbClose db w
  | none => w

/-! ## The table migrators -/

/-- The query text of `MigrateTenantInfo`. -/
def tenantQuery : String := "SELECT tenant_id, tenant_name, tenant_desc FROM tenant_info"

/-- The insert statement of `MigrateTenantInfo`, with the line breaks and
tabs of the raw string literal. -/
def tenantInsert : String :=
  "\n\t\tINSERT INTO tenant_info (tenant_id, tenant_name, tenant_desc) "
    ++ "\n\t\tVALUES ($1, $2, $3)\n\t"

/-- The query text of `MigrateConfigInfo`. -/
def configQuery : String := "SELECT data_id, group_id, content, tenant_id, type FROM config_info"

/-- The insert statement of `MigrateConfigInfo`, with the line breaks and
tabs of the raw string literal. -/
def configInsert : String :=
  "\n\t\tINSERT INTO config_info "
    ++ "(data_id, group_id, content, tenant_id, type, version, create_time) "
    ++ "\n\t\tVALUES ($1, $2, $3, $4, $5, $6, $7)\n\t"

/-- The `defer insertStmt.Close()` and `defer rows.Close()` of a table
migrator, run in that order when it returns after both were registered. -/
def runDefers (w : World) : World :=
  (w.emit .stmtClose).emit .rowsClose

/-- The arguments of the insert `Exec` of `MigrateTenantInfo` for one
scanned row: the `String` field of each scanned `sql.NullString`. -/
def tenantArgs (src : TenantSrcRow) : TargetRow :=
  let tenantID := ScanNullString src.tenant_id
  let tenantName := ScanNullString src.tenant_name
  let tenantDesc := ScanNullString src.tenant_desc
  [.text tenantID.String, .text tenantName.String, .text tenantDesc.String]

/-- The arguments of the insert `Exec` of `MigrateConfigInfo` for one
scanned row, given the value of the variable `currentTime`. -/
def configArgs (currentTime : Nat) (src : ConfigSrcRow) : TargetRow :=
  let dataID := ScanNullString src.data_id
  let groupID := ScanNullString src.group_id
  let content := ScanNullString src.content
  let tenantID := ScanNullString src.tenant_id
  let configType := ScanNullString src.type
  [.text dataID.String, .text groupID.String, .text content.String, .text tenantID.String,
    .text configType.String, .int 1, .timestamp currentTime]

/-- The loop `for rows.Next()` of `MigrateTenantInfo` (lines 118 to 139),
run on what is left of the cursor.  `tx` holds the rows inserted in the
open transaction, `count` is the variable `count` (a Go `int` that counts
the rows inserted so far, one by one from 0: it stays far below `2^63`
for any cursor, so it is a `Nat` here).  An error result is the early
`return` of the loop body, after its `tx.Rollback()`. -/
def tenantLoop (env : TableEnv TenantSrcRow) :
    List (Except String TenantSrcRow) → List TargetRow → Nat → World →
      World × Except MigErr (List TargetRow × Nat)
  | [], tx, count, w => (w.emit .rowsNext, .ok (tx, count))
  | r :: rest, tx, count, w =>
    let w := (w.emit .rowsNext).emit .rowsScan
    match r with
    | .error err => (w.emit .txRollback, .error (.scanRow err))
    | .ok src =>
      let w := w.emit (.exec tenantInsert (tenantArgs src))
      match env.execErr tx.length with
      | some err => (w.emit .txRollback, .error (.insertRow err))
      | none =>
        let count := count + 1
        let w := if count % 1000 = 0 then
            w.logLine ("已迁移 " ++ toString count ++ " 条 tenant_info 记录")
          else w
        tenantLoop env rest (tx ++ [tenantArgs src]) count w

/-- MigrateTenantInfo of `migrator.go`.  The result is the returned
`error`, with `none` for nil. -/
def Migrator.MigrateTenantInfo (_m : Migrator) (env : Env) (w : World) : World × Option MigErr :=
  let w := w.logLine "开始迁移 tenant_info 表..."
  let w := w.emit (.query tenantQuery)
  match env.tenant.queryErr with
  | some err => (w, some (.queryTenant err))
  | none =>
    let w := w.emit (.prepare tenantInsert)
    match env.tenant.prepareErr with
    | some err => (w.emit .rowsClose, some (.prepareStmt err))
    | none =>
      let w := w.emit .txBegin
      match env.tenant.beginErr with
      | some err => (runDefers w, some (.beginTx err))
      | none =>
        match tenantLoop env.tenant env.tenant.rows [] 0 w with
        | (w, .error err) => (runDefers w, some err)
        | (w, .ok (tx, count)) =>
          let w := w.emit .rowsErr
          match env.tenant.rowsErr with
          | some err => (runDefers (w.emit .txRollback), some (.cursor err))
          | none =>
            let w := w.emit .txCommit
            match env.tenant.commitErr with
            | some err => (runDefers w, some (.commitTx err))
            | none =>
              let w := { w with tenant_info := w.tenant_info ++ tx }
              let w := w.logLine ("tenant_info 表迁移完成，共迁移 " ++ toString count ++ " 条记录")
              (runDefers w, none)

/-- The loop `for rows.Next()` of `MigrateConfigInfo` (lines 185 to 210),
with the value of `currentTime` taken before the loop. -/
def configLoop (env : TableEnv ConfigSrcRow) (currentTime : Nat) :
    List (Except String ConfigSrcRow) → List TargetRow → Nat → World →
      World × Except MigErr (List TargetRow × Nat)
  | [], tx, count, w => (w.emit .rowsNext, .ok (tx, count))
  | r :: rest, tx, count, w =>
    let w := (w.emit .rowsNext).emit .rowsScan
    match r with
    | .error err => (w.emit .txRollback, .error (.scanRow err))
    | .ok src =>
      let w := w.emit (.exec configInsert (configArgs currentTime src))
      match env.execErr tx.length with
      | some err => (w.emit .txRollback, .error (.insertRow err))
      | none =>
        let count := count + 1
        let w := if count % 1000 = 0 then
            w.logLine ("已迁移 " ++ toString count ++ " 条 config_info 记录")
          else w
        configLoop env currentTime rest (tx ++ [configArgs currentTime src]) count w

/-- MigrateConfigInfo of `migrator.go`.  The result is the returned
`error`, with `none` for nil. -/
def Migrator.MigrateConfigInfo (_m : Migrator) (env : Env) (w : World) : World × Option MigErr :=
  let w := w.logLine "开始迁移 config_info 表..."
  let w := w.emit (.query configQuery)
  match env.config.queryErr with
  | some err => (w, some (.queryConfig err))
  | none =>
    let w := w.emit (.prepare configInsert)
    match env.config.prepareErr with
    | some err => (w.emit .rowsClose, some (.prepareStmt err))
    | none =>
      let w := w.emit .txBegin
      match env.config.beginErr with
      | some err => (runDefers w, some (.beginTx err))
      | none =>
        let currentTime := timeNow env w
        match configLoop env.config currentTime env.config.rows [] 0 w with
        | (w, .error err) => (runDefers w, some err)
        | (w, .ok (tx, count)) =>
          let w := w.emit .rowsErr
          match env.config.rowsErr with
          | some err => (runDefers (w.emit .txRollback), some (.cursor err))
          | none =>
            let w := w.emit .txCommit
            match env.config.commitErr with
            | some err => (runDefers w, some (.commitTx err))
            | none =>
              let w := { w with config_info := w.config_info ++ tx }
              let w := w.logLine ("config_info 表迁移完成，共迁移 " ++ toString count ++ " 条记录")
              (runDefers w, none)

/-! ## `main` -/

/-- How the process ends: `main` returns, or `log.Fatal`/`log.Fatalf`
ends it with status 1. -/
inductive Exit where
  | returned
  | fatal
  deriving DecidableEq, Repr

/-- The calls `log.Fatal` and `log.Fatalf`: the message is logged and
`os.Exit(1)` ends the process at once; deferred calls do not run. -/
def logFatal (w : World) (msg : String) : World × Exit :=
  (w.logLine msg, .fatal)

/-- Function main of `main.go`, given the value of the flag `--config`. -/
def main (env : Env) (configFile : String) (w : World) : World × Exit :=
  if configFile = "" then
    logFatal w "请指定配置文件路径，使用 --config 参数"
  else
    match env.loadConfig configFile with
    | .error err => logFatal w ("加载配置文件失败: " ++ err)
    | .ok config =>
      match NewMigrator env config w with
      | (w, .error err) => logFatal w ("创建迁移器失败: " ++ err.Error)
      | (w, .ok migrator) =>
        -- defer migrator.Close()
        let w := w.println "开始数据迁移..."
        let w := w.println "正在迁移 tenant_info 表..."
        match migrator.MigrateTenantInfo env w with
        | (w, some err) => logFatal w ("迁移 tenant_info 表失败: " ++ err.Error)
        | (w, none) =>
          let w := w.println "tenant_info 表迁移完成"
          let w := w.println "正在迁移 config_info 表..."
          match migrator.MigrateConfigInfo env w with
          | (w, some err) => logFatal w ("迁移 config_info 表失败: " ++ err.Error)
          | (w, none) =>
            let w := w.println "config_info 表迁移完成"
            let w := w.println "所有表迁移完成！"
            (migrator.Close w, .returned)

/-! ## Vocabulary of the statements -/

/-- The progress line of `MigrateTenantInfo`. -/
def tenantProgress (count : Nat) : String :=
  "已迁移 " ++ toString count ++ " 条 tenant_info 记录"

/-- The progress line of `MigrateConfigInfo`. -/
def configProgress (count : Nat) : String :=
  "已迁移 " ++ toString count ++ " 条 config_info 记录"

/-- The common shape of `tenantLoop` and `configLoop`, which differ in the
statement, the row arguments and the progress line. -/
def rowLoop {α : Type} (stmt : String) (msg : Nat → String) (mk : α → TargetRow)
    (execErr : Nat → Option String) :
    List (Except String α) → List TargetRow → Nat → World →
      World × Except MigErr (List TargetRow × Nat)
  | [], tx, count, w => (w.emit .rowsNext, .ok (tx, count))
  | r :: rest, tx, count, w =>
    let w := (w.emit .rowsNext).emit .rowsScan
    match r with
    | .error err => (w.emit .txRollback, .error (.scanRow err))
    | .ok src =>
      let w := w.emit (.exec stmt (mk src))
      match execErr tx.length with
      | some err => (w.emit .txRollback, .error (.insertRow err))
      | none =>
        let count := count + 1
        let w := if count % 1000 = 0 then
            w.logLine (msg count)
          else w
        rowLoop stmt msg mk execErr rest (tx ++ [mk src]) count w

/-- The database calls of the loop for rows that are read and inserted
without error. -/
def okRowEvents {α : Type} (stmt : String) (mk : α → TargetRow) : List α → List Event
  | [] => []
  | r :: rs => [.rowsNext, .rowsScan, .exec stmt (mk r)] ++ okRowEvents stmt mk rs

/-- The database calls of the loop for the row whose read or insert
fails, before the rollback. -/
def badRowEvents {α : Type} (stmt : String) (mk : α → TargetRow) :
    Except String α → List Event
  | .error _ => [.rowsNext, .rowsScan]
  | .ok r => [.rowsNext, .rowsScan, .exec stmt (mk r)]

/-- The source yields exactly the rows `src`, each read without error, and
every insert of them succeeds. -/
def TableEnv.RowsOk {α : Type} (te : TableEnv α) (src : List α) : Prop :=
  te.queryErr = none ∧ te.prepareErr = none ∧ te.beginErr = none ∧
    te.rows = src.map Except.ok ∧ (∀ k, k < src.length → te.execErr k = none) ∧
    te.rowsErr = none

/-- The migration of the rows `src` meets no error at all. -/
def TableEnv.ErrorFree {α : Type} (te : TableEnv α) (src : List α) : Prop :=
  te.RowsOk src ∧ te.commitErr = none

/-- The rows `pre` are read and inserted without error and the next row
of the cursor, `bad`, fails: its read fails, or its insert does. -/
def TableEnv.FailsAfter {α : Type} (te : TableEnv α) (pre : List α) (bad : Except String α)
    (post : List (Except String α)) : Prop :=
  te.queryErr = none ∧ te.prepareErr = none ∧ te.beginErr = none ∧
    te.rows = pre.map Except.ok ++ bad :: post ∧
    (∀ k, k < pre.length → te.execErr k = none) ∧
    ((∃ e, bad = .error e) ∨ (∃ e, te.execErr pre.length = some e))

/-- The rows `pre` are read and inserted without error and the cursor
then stops with an error: `rows.Next()` is false and `rows.Err()` is not
nil. -/
def TableEnv.CursorFailsAfter {α : Type} (te : TableEnv α) (pre : List α) : Prop :=
  te.queryErr = none ∧ te.prepareErr = none ∧ te.beginErr = none ∧
    te.rows = pre.map Except.ok ∧ (∀ k, k < pre.length → te.execErr k = none) ∧
    te.rowsErr ≠ none

/-- The target row the specification asks for a tenant source row: each
column is the source value, or the empty string for NULL. -/
def tenantRowSpec (src : TenantSrcRow) : TargetRow :=
  [.text (src.tenant_id.getD ""), .text (src.tenant_name.getD ""), .text (src.tenant_desc.getD "")]

/-- The first five target columns the specification asks for a config
source row. -/
def configRowSpec (src : ConfigSrcRow) : TargetRow :=
  [.text (src.data_id.getD ""), .text (src.group_id.getD ""), .text (src.content.getD ""),
    .text (src.tenant_id.getD ""), .text (src.type.getD "")]

/-- Errors of the kind "unsupported engine". -/
def MigErr.isUnsupportedEngine : MigErr → Bool
  | .unsupportedSource _ => true
  | .unsupportedTarget _ => true
  | _ => false

/-- A database call that reads or writes `config_info`. -/
def Event.onConfigInfo : Event → Bool
  | .query q => q = configQuery
  | .prepare stmt => stmt = configInsert
  | .exec stmt _ => stmt = configInsert
  | _ => false

/-- The database calls a table migrator may make: its query, its prepare,
cursor and transaction calls, and inserts of mapped rows through its
statement; never a call on a handle itself. -/
def tableEvent {α : Type} (q stmt : String) (mk : α → TargetRow) (e : Event) : Prop :=
  e = .query q ∨ e = .prepare stmt ∨ e = .txBegin ∨ e = .rowsNext ∨ e = .rowsScan
    ∨ e = .rowsErr
    ∨ e = .txRollback ∨ e = .txCommit ∨ e = .stmtClose ∨ e = .rowsClose
    ∨ ∃ src, e = .exec stmt (mk src)

/-- A database call that reads or writes `tenant_info`. -/
def Event.onTenantInfo : Event → Bool
  | .query q => q = tenantQuery
  | .prepare stmt => stmt = tenantInsert
  | .exec stmt _ => stmt = tenantInsert
  | _ => false

/-- A call of `Close` on a database handle. -/
def Event.isClose : Event → Bool
  | .dbClose _ => true
  | _ => false

/-- The database calls made after the world `w`, in a later world `w2`. -/
def callsSince (w w2 : World) : List Event :=
  w2.trace.drop w.trace.length

/-- The world in which `main` calls `MigrateTenantInfo`, given the world
`NewMigrator` left. -/
def tenantStart (w1 : World) : World :=
  (w1.println "开始数据迁移...").println "正在迁移 tenant_info 表..."

/-- The world in which `main` calls `MigrateConfigInfo`, given the world
`MigrateTenantInfo` left. -/
def configStart (wt : World) : World :=
  (wt.println "tenant_info 表迁移完成").println "正在迁移 config_info 表..."

/-! ## Concrete runs -/

/-- A world in which nothing has happened and both target tables are empty. -/
def emptyWorld : World :=
  { trace := [], openDBs := [], tenant_info := [], config_info := [], log := [], stdout := [] }

/-- A table environment in which no call fails and the cursor yields `rows`. -/
def okTable {α : Type} (rows : List α) : TableEnv α :=
  { queryErr := none, prepareErr := none, beginErr := none, rows := rows.map Except.ok,
    execErr := fun _ => none, rowsErr := none, commitErr := none }

/-- The MySQL section of `sampleConfig`. -/
def sampleMySQL : MySQLConfig :=
  { Host := "127.0.0.1", Port := 3306, Username := "root", Password := "secret",
    Database := "confkeeper", Charset := "utf8mb4" }

/-- The PostgreSQL section of `sampleConfig`. -/
def samplePostgreSQL : PostgreSQLConfig :=
  { Host := "127.0.0.1", Port := 5432, Username := "postgres", Password := "secret",
    Database := "confkeeper", SSLMode := "disable" }

/-- A configuration with the two supported engine kinds. -/
def sampleConfig : Config :=
  { Source := ⟨"mysql", sampleMySQL⟩, Target := ⟨"postgresql", samplePostgreSQL⟩,
    Migration := ⟨1000, 30, []⟩ }

/-- The configuration `sampleConfig` with the source engine kind `oracle`. -/
def oracleConfig : Config :=
  { sampleConfig with Source := ⟨"oracle", sampleConfig.Source.MySQL⟩ }

/-- The migrator `NewMigrator` builds from `sampleConfig`. -/
def sampleMigrator : Migrator :=
  { mysqlDB := some ⟨"mysql", mysqlDSN sampleConfig⟩,
    pgDB := some ⟨"postgres", pgDSN sampleConfig⟩, config := sampleConfig }

/-- The tenant rows `(1,'acme','desc')` and `(2,NULL,'x')`. -/
def sampleTenants : List TenantSrcRow :=
  [⟨some "1", some "acme", some "desc"⟩, ⟨some "2", none, some "x"⟩]

/-- Two config rows, the second with a NULL `type`. -/
def sampleConfigs : List ConfigSrcRow :=
  [⟨some "app.yaml", some "DEFAULT_GROUP", some "a: 1", some "1", some "yaml"⟩,
   ⟨some "db.json", some "DEFAULT_GROUP", some "x", some "2", none⟩]

/-- An outside world in which every connection call succeeds, the clock
advances by one with each database call, and the two tables answer as
given. -/
def envWith (tenant : TableEnv TenantSrcRow) (config : TableEnv ConfigSrcRow) : Env :=
  { loadConfig := fun _ => .ok sampleConfig, openErr := fun _ => none, pingErr := fun _ => none,
    now := fun n => 1000 + n, tenant := tenant, config := config }

/-- A run without any error over `sampleTenants` and `sampleConfigs`. -/
def happyEnv : Env := envWith (okTable sampleTenants) (okTable sampleConfigs)

/-- A run without any error over two empty source tables. -/
def emptyEnv : Env := envWith (okTable []) (okTable [])

/-- The tenant row `(3,'z',NULL)`. -/
def thirdTenant : TenantSrcRow := ⟨some "3", some "z", none⟩

/-- A third config row. -/
def thirdConfig : ConfigSrcRow := ⟨some "c.txt", none, some "y", some "3", some "text"⟩

/-- A run in which the insert of the second of three rows fails, in both
tables. -/
def secondInsertFailsEnv : Env :=
  envWith
    { okTable (sampleTenants ++ [thirdTenant]) with
      execErr := fun k => if k = 1 then some "duplicate key" else none }
    { okTable (sampleConfigs ++ [thirdConfig]) with
      execErr := fun k => if k = 1 then some "duplicate key" else none }

/-- A run in which the source query of `tenant_info` fails. -/
def tenantQueryFailsEnv : Env :=
  envWith { okTable sampleTenants with queryErr := some "table not found" } (okTable sampleConfigs)

/-- A run in which the tenant migration commits and the insert of the
second config row fails. -/
def configFailsEnv : Env :=
  envWith (okTable sampleTenants)
    { okTable sampleConfigs with execErr := fun k => if k = 1 then some "duplicate key" else none }

/-- A run in which the commit fails, in both tables. -/
def commitFailsEnv : Env :=
  envWith { okTable sampleTenants with commitErr := some "connection lost" }
    { okTable sampleConfigs with commitErr := some "connection lost" }

/-- A run in which the target does not answer the ping. -/
def targetDownEnv : Env :=
  { happyEnv with pingErr := fun db =>
      if db.driverName = "postgres" then some "connection refused" else none }

/-- The world `NewMigrator` leaves when started in `emptyWorld` with
`sampleConfig` and every connection call succeeds. -/
def acquiredWorld : World :=
  { emptyWorld with
    trace := [.sqlOpen ⟨"mysql", mysqlDSN sampleConfig⟩, .ping ⟨"mysql", mysqlDSN sampleConfig⟩,
      .sqlOpen ⟨"postgres", pgDSN sampleConfig⟩, .ping ⟨"postgres", pgDSN sampleConfig⟩],
    openDBs := [⟨"mysql", mysqlDSN sampleConfig⟩, ⟨"postgres", pgDSN sampleConfig⟩] }

/-! ## The loops -/

theorem tenantLoop_eq (env : TableEnv TenantSrcRow) (rows : List (Except String TenantSrcRow))
    (tx : List TargetRow) (count : Nat) (w : World) :
    tenantLoop env rows tx count w
      = rowLoop tenantInsert tenantProgress tenantArgs env.execErr rows tx count w := by
  induction rows generalizing tx count w with
  | nil => rfl
  | cons r rest ih =>
    cases r with
    | error e => rfl
    | ok src =>
      simp only [tenantLoop, rowLoop]
      cases env.execErr tx.length with
      | some e => rfl
      | none => simp only [ih]; rfl

theorem configLoop_eq (env : TableEnv ConfigSrcRow) (t : Nat)
    (rows : List (Except String ConfigSrcRow)) (tx : List TargetRow) (count : Nat) (w : World) :
    configLoop env t rows tx count w
      = rowLoop configInsert configProgress (configArgs t) env.execErr rows tx count w := by
  induction rows generalizing tx count w with
  | nil => rfl
  | cons r rest ih =>
    cases r with
    | error e => rfl
    | ok src =>
      simp only [configLoop, rowLoop]
      cases env.execErr tx.length with
      | some e => rfl
      | none => simp only [ih]; rfl

@[simp] theorem emit_trace (w : World) (e : Event) : (w.emit e).trace = w.trace ++ [e] := rfl
@[simp] theorem emit_openDBs (w : World) (e : Event) : (w.emit e).openDBs = w.openDBs := rfl
@[simp] theorem emit_tenant_info (w : World) (e : Event) :
    (w.emit e).tenant_info = w.tenant_info := rfl
@[simp] theorem emit_config_info (w : World) (e : Event) :
    (w.emit e).config_info = w.config_info := rfl
@[simp] theorem emit_log (w : World) (e : Event) : (w.emit e).log = w.log := rfl
@[simp] theorem emit_stdout (w : World) (e : Event) : (w.emit e).stdout = w.stdout := rfl
@[simp] theorem logLine_trace (w : World) (s : String) : (w.logLine s).trace = w.trace := rfl
@[simp] theorem logLine_openDBs (w : World) (s : String) : (w.logLine s).openDBs = w.openDBs := rfl
@[simp] theorem logLine_tenant_info (w : World) (s : String) :
    (w.logLine s).tenant_info = w.tenant_info := rfl
@[simp] theorem logLine_config_info (w : World) (s : String) :
    (w.logLine s).config_info = w.config_info := rfl
@[simp] theorem logLine_log (w : World) (s : String) : (w.logLine s).log = w.log ++ [s] := rfl
@[simp] theorem logLine_stdout (w : World) (s : String) : (w.logLine s).stdout = w.stdout := rfl
@[simp] theorem println_trace (w : World) (s : String) : (w.println s).trace = w.trace := rfl
@[simp] theorem println_openDBs (w : World) (s : String) : (w.println s).openDBs = w.openDBs := rfl
@[simp] theorem println_tenant_info (w : World) (s : String) :
    (w.println s).tenant_info = w.tenant_info := rfl
@[simp] theorem println_config_info (w : World) (s : String) :
    (w.println s).config_info = w.config_info := rfl
@[simp] theorem println_log (w : World) (s : String) : (w.println s).log = w.log := rfl

/-- The progress line of the loop changes nothing but the log. -/
theorem progress_fields (c : Prop) [Decidable c] (w : World) (s : String) :
    (if c then w.logLine s else w).trace = w.trace
      ∧ (if c then w.logLine s else w).openDBs = w.openDBs
      ∧ (if c then w.logLine s else w).tenant_info = w.tenant_info
      ∧ (if c then w.logLine s else w).config_info = w.config_info
      ∧ (if c then w.logLine s else w).stdout = w.stdout := by
  split <;> simp

/-- The loop leaves the committed tables, the open handles and the
standard output as they are, whatever the cursor yields. -/
theorem rowLoop_frame {α : Type} (stmt : String) (msg : Nat → String) (mk : α → TargetRow)
    (execErr : Nat → Option String) (rows : List (Except String α)) :
    ∀ (tx : List TargetRow) (count : Nat) (w : World),
      (rowLoop stmt msg mk execErr rows tx count w).1.tenant_info = w.tenant_info
        ∧ (rowLoop stmt msg mk execErr rows tx count w).1.config_info = w.config_info
        ∧ (rowLoop stmt msg mk execErr rows tx count w).1.openDBs = w.openDBs
        ∧ (rowLoop stmt msg mk execErr rows tx count w).1.stdout = w.stdout := by
  induction rows with
  | nil => intro tx count w; simp [rowLoop]
  | cons r rest ih =>
    intro tx count w
    cases r with
    | error e => simp [rowLoop]
    | ok src =>
      simp only [rowLoop]
      cases h : execErr tx.length with
      | some e => simp
      | none =>
        simp only
        obtain ⟨h1, h2, h3, h4⟩ := ih (tx ++ [mk src]) (count + 1)
          (if (count + 1) % 1000 = 0 then
            (((w.emit .rowsNext).emit .rowsScan).emit (.exec stmt (mk src))).logLine
              (msg (count + 1))
          else ((w.emit .rowsNext).emit .rowsScan).emit (.exec stmt (mk src)))
        obtain ⟨_, p2, p3, p4, p5⟩ := progress_fields ((count + 1) % 1000 = 0)
          (((w.emit .rowsNext).emit .rowsScan).emit (.exec stmt (mk src))) (msg (count + 1))
        rw [h1, h2, h3, h4, p2, p3, p4, p5]
        simp

/-- When every row is read and inserted without error, the loop inserts
one row per source row, in order, and counts them. -/
theorem rowLoop_ok {α : Type} (stmt : String) (msg : Nat → String) (mk : α → TargetRow)
    (execErr : Nat → Option String) (src : List α) :
    ∀ (tx : List TargetRow) (count : Nat) (w : World),
      (∀ k, k < src.length → execErr (tx.length + k) = none) →
      (rowLoop stmt msg mk execErr (src.map Except.ok) tx count w).2
          = .ok (tx ++ src.map mk, count + src.length)
        ∧ (rowLoop stmt msg mk execErr (src.map Except.ok) tx count w).1.trace
          = w.trace ++ okRowEvents stmt mk src ++ [.rowsNext] := by
  induction src with
  | nil => intro tx count w _; simp [rowLoop, okRowEvents]
  | cons r rest ih =>
    intro tx count w h
    have h0 : execErr tx.length = none := by simpa using h 0 (by simp)
    have hrest : ∀ k, k < rest.length → execErr ((tx ++ [mk r]).length + k) = none := by
      intro k hk
      have := h (k + 1) (by simpa using hk)
      simpa [Nat.add_assoc, Nat.add_comm 1 k] using this
    simp only [List.map_cons, rowLoop, h0]
    obtain ⟨h1, h2⟩ := ih (tx ++ [mk r]) (count + 1)
      (if (count + 1) % 1000 = 0 then
        (((w.emit .rowsNext).emit .rowsScan).emit (.exec stmt (mk r))).logLine (msg (count + 1))
      else ((w.emit .rowsNext).emit .rowsScan).emit (.exec stmt (mk r))) hrest
    obtain ⟨p1, _⟩ := progress_fields ((count + 1) % 1000 = 0)
      (((w.emit .rowsNext).emit .rowsScan).emit (.exec stmt (mk r))) (msg (count + 1))
    rw [h1, h2, p1]
    constructor
    · simp [Nat.add_assoc, Nat.add_comm 1 rest.length]
    · simp [okRowEvents]

/-- When the rows `pre` go through and the next row fails, the loop rolls
back after that row and returns an error; the rest of the cursor is not
touched. -/
theorem rowLoop_fail {α : Type} (stmt : String) (msg : Nat → String) (mk : α → TargetRow)
    (execErr : Nat → Option String) (pre : List α) (bad : Except String α)
    (post : List (Except String α)) :
    ∀ (tx : List TargetRow) (count : Nat) (w : World),
      (∀ k, k < pre.length → execErr (tx.length + k) = none) →
      ((∃ e, bad = .error e) ∨ (∃ e, execErr (tx.length + pre.length) = some e)) →
      (∃ err, (rowLoop stmt msg mk execErr (pre.map Except.ok ++ bad :: post) tx count w).2
          = .error err ∧ ((∃ e, err = .scanRow e) ∨ (∃ e, err = .insertRow e)))
        ∧ (rowLoop stmt msg mk execErr (pre.map Except.ok ++ bad :: post) tx count w).1.trace
          = w.trace ++ okRowEvents stmt mk pre ++ badRowEvents stmt mk bad ++ [.txRollback] := by
  induction pre with
  | nil =>
    intro tx count w _ hbad
    cases bad with
    | error e => simp [rowLoop, okRowEvents, badRowEvents]
    | ok r =>
      rcases hbad with ⟨e, he⟩ | ⟨e, he⟩
      · cases he
      · simp only [List.length_nil, Nat.add_zero] at he
        simp [rowLoop, okRowEvents, badRowEvents, he]
  | cons r rest ih =>
    intro tx count w h hbad
    have h0 : execErr tx.length = none := by simpa using h 0 (by simp)
    have hrest : ∀ k, k < rest.length → execErr ((tx ++ [mk r]).length + k) = none := by
      intro k hk
      have := h (k + 1) (by simpa using hk)
      simpa [Nat.add_assoc, Nat.add_comm 1 k] using this
    have hbad2 : (∃ e, bad = .error e)
        ∨ (∃ e, execErr ((tx ++ [mk r]).length + rest.length) = some e) := by
      rcases hbad with hb | ⟨e, he⟩
      · exact Or.inl hb
      · refine Or.inr ⟨e, ?_⟩
        simpa [Nat.add_assoc, Nat.add_comm 1 rest.length] using he
    have e : (r :: rest).map Except.ok ++ bad :: post
        = Except.ok r :: (rest.map Except.ok ++ bad :: post) := rfl
    rw [e]
    simp only [rowLoop, h0]
    obtain ⟨h1, h2⟩ := ih (tx ++ [mk r]) (count + 1)
      (if (count + 1) % 1000 = 0 then
        (((w.emit .rowsNext).emit .rowsScan).emit (.exec stmt (mk r))).logLine (msg (count + 1))
      else ((w.emit .rowsNext).emit .rowsScan).emit (.exec stmt (mk r))) hrest hbad2
    obtain ⟨p1, _⟩ := progress_fields ((count + 1) % 1000 = 0)
      (((w.emit .rowsNext).emit .rowsScan).emit (.exec stmt (mk r))) (msg (count + 1))
    refine ⟨h1, ?_⟩
    rw [h2, p1]
    simp [okRowEvents]

/-- Whatever the cursor yields, the loop only adds cursor reads, inserts
of mapped rows through `stmt`, and at most a rollback to the trace; the
rows it leaves in the transaction are mapped source rows. -/
theorem rowLoop_events {α : Type} (stmt : String) (msg : Nat → String) (mk : α → TargetRow)
    (execErr : Nat → Option String) (rows : List (Except String α)) :
    ∀ (tx : List TargetRow) (count : Nat) (w : World),
      (∃ new, (rowLoop stmt msg mk execErr rows tx count w).1.trace = w.trace ++ new
          ∧ ∀ e ∈ new, e = .rowsNext ∨ e = .rowsScan ∨ e = .txRollback
              ∨ ∃ src, e = .exec stmt (mk src))
        ∧ ∀ tx2 c2, (rowLoop stmt msg mk execErr rows tx count w).2 = .ok (tx2, c2) →
            ∀ row ∈ tx2, row ∈ tx ∨ ∃ src, row = mk src := by
  induction rows with
  | nil =>
    intro tx count w
    refine ⟨⟨[.rowsNext], by simp [rowLoop], by simp⟩, ?_⟩
    intro tx2 c2 h row hrow
    simp only [rowLoop, Except.ok.injEq, Prod.mk.injEq] at h
    exact Or.inl (h.1 ▸ hrow)
  | cons r rest ih =>
    intro tx count w
    cases r with
    | error e =>
      refine ⟨⟨[.rowsNext, .rowsScan, .txRollback], by simp [rowLoop], by simp⟩, ?_⟩
      intro tx2 c2 h
      simp [rowLoop] at h
    | ok src =>
      simp only [rowLoop]
      cases h : execErr tx.length with
      | some e =>
        refine ⟨⟨[.rowsNext, .rowsScan, .exec stmt (mk src), .txRollback], by simp, ?_⟩, ?_⟩
        · intro e he
          simp only [List.mem_cons, List.mem_singleton, List.not_mem_nil, or_false] at he
          rcases he with rfl | rfl | rfl | rfl
          · simp
          · simp
          · exact Or.inr (Or.inr (Or.inr ⟨src, rfl⟩))
          · simp
        · intro tx2 c2 h
          simp at h
      | none =>
        simp only
        obtain ⟨⟨new, h1, h2⟩, h3⟩ := ih (tx ++ [mk src]) (count + 1)
          (if (count + 1) % 1000 = 0 then
            (((w.emit .rowsNext).emit .rowsScan).emit (.exec stmt (mk src))).logLine
              (msg (count + 1))
          else ((w.emit .rowsNext).emit .rowsScan).emit (.exec stmt (mk src)))
        obtain ⟨p1, _⟩ := progress_fields ((count + 1) % 1000 = 0)
          (((w.emit .rowsNext).emit .rowsScan).emit (.exec stmt (mk src))) (msg (count + 1))
        refine ⟨⟨[.rowsNext, .rowsScan, .exec stmt (mk src)] ++ new, ?_, ?_⟩, ?_⟩
        · rw [h1, p1]; simp
        · intro e he
          rcases List.mem_append.mp he with he | he
          · simp only [List.mem_cons, List.mem_singleton, List.not_mem_nil, or_false] at he
            rcases he with rfl | rfl | rfl
            · simp
            · simp
            · exact Or.inr (Or.inr (Or.inr ⟨src, rfl⟩))
          · exact h2 e he
        · intro tx2 c2 h row hrow
          rcases h3 tx2 c2 h row hrow with hr | hr
          · rcases List.mem_append.mp hr with hr | hr
            · exact Or.inl hr
            · exact Or.inr ⟨src, by simpa using hr⟩
          · exact Or.inr hr

/-! ## The table migrators -/

theorem callsSince_append (w w2 : World) (new : List Event) (h : w2.trace = w.trace ++ new) :
    callsSince w w2 = new := by
  simp [callsSince, h]

theorem tenantArgs_eq (src : TenantSrcRow) : tenantArgs src = tenantRowSpec src := by
  obtain ⟨a, b, c⟩ := src
  cases a <;> cases b <;> cases c <;> rfl

theorem configArgs_eq (t : Nat) (src : ConfigSrcRow) :
    configArgs t src = configRowSpec src ++ [.int 1, .timestamp t] := by
  obtain ⟨a, b, c, d, e⟩ := src
  cases a <;> cases b <;> cases c <;> cases d <;> cases e <;> rfl

/-- The run of `MigrateTenantInfo` when all rows are read and inserted
without error, up to and including the commit. -/
theorem tenant_rowsOk (m : Migrator) (env : Env) (w : World) (src : List TenantSrcRow)
    (h : env.tenant.RowsOk src) :
    (m.MigrateTenantInfo env w).1.trace
        = w.trace ++ [.query tenantQuery, .prepare tenantInsert, .txBegin]
          ++ okRowEvents tenantInsert tenantArgs src
          ++ [.rowsNext, .rowsErr, .txCommit, .stmtClose, .rowsClose]
      ∧ (m.MigrateTenantInfo env w).1.config_info = w.config_info
      ∧ (m.MigrateTenantInfo env w).1.openDBs = w.openDBs
      ∧ (∀ e, env.tenant.commitErr = some e →
          (m.MigrateTenantInfo env w).2 = some (.commitTx e)
            ∧ (m.MigrateTenantInfo env w).1.tenant_info = w.tenant_info)
      ∧ (env.tenant.commitErr = none →
          (m.MigrateTenantInfo env w).2 = none
            ∧ (m.MigrateTenantInfo env w).1.tenant_info = w.tenant_info ++ src.map tenantArgs
            ∧ (m.MigrateTenantInfo env w).1.log.getLast?
                = some ("tenant_info 表迁移完成，共迁移 " ++ toString src.length ++ " 条记录")) := by
  obtain ⟨hq, hp, hb, hrows, hexec, hre⟩ := h
  unfold Migrator.MigrateTenantInfo
  simp only [hq, hp, hb, hre, tenantLoop_eq, hrows]
  have hl := rowLoop_ok tenantInsert tenantProgress tenantArgs env.tenant.execErr src [] 0
    ((((w.logLine "开始迁移 tenant_info 表...").emit (.query tenantQuery)).emit
      (.prepare tenantInsert)).emit .txBegin) (by simpa using hexec)
  have hf := rowLoop_frame tenantInsert tenantProgress tenantArgs env.tenant.execErr
    (src.map Except.ok) [] 0
    ((((w.logLine "开始迁移 tenant_info 表...").emit (.query tenantQuery)).emit
      (.prepare tenantInsert)).emit .txBegin)
  generalize rowLoop tenantInsert tenantProgress tenantArgs env.tenant.execErr
    (src.map Except.ok) [] 0 _ = res at hl hf ⊢
  obtain ⟨wl, r⟩ := res
  simp only [emit_trace, logLine_trace, emit_tenant_info, logLine_tenant_info, emit_config_info,
    logLine_config_info, emit_openDBs, logLine_openDBs, List.nil_append, Nat.zero_add] at hl hf
  obtain ⟨rfl, htrace⟩ := hl
  obtain ⟨hf1, hf2, hf3, -⟩ := hf
  cases hc : env.tenant.commitErr with
  | some e => simp [runDefers, htrace, hf1, hf2, hf3]
  | none => simp [runDefers, htrace, hf1, hf2, hf3]

/-- The run of `MigrateTenantInfo` when a row fails after the rows `pre`. -/
theorem tenant_fail (m : Migrator) (env : Env) (w : World) (pre : List TenantSrcRow)
    (bad : Except String TenantSrcRow) (post : List (Except String TenantSrcRow))
    (h : env.tenant.FailsAfter pre bad post) :
    (∃ err, (m.MigrateTenantInfo env w).2 = some err
        ∧ ((∃ e, err = .scanRow e) ∨ (∃ e, err = .insertRow e)))
      ∧ (m.MigrateTenantInfo env w).1.trace
        = w.trace ++ [.query tenantQuery, .prepare tenantInsert, .txBegin]
          ++ okRowEvents tenantInsert tenantArgs pre ++ badRowEvents tenantInsert tenantArgs bad
          ++ [.txRollback, .stmtClose, .rowsClose]
      ∧ (m.MigrateTenantInfo env w).1.tenant_info = w.tenant_info
      ∧ (m.MigrateTenantInfo env w).1.config_info = w.config_info := by
  obtain ⟨hq, hp, hb, hrows, hexec, hbad⟩ := h
  unfold Migrator.MigrateTenantInfo
  simp only [hq, hp, hb, tenantLoop_eq, hrows]
  have hl := rowLoop_fail tenantInsert tenantProgress tenantArgs env.tenant.execErr pre bad post
    [] 0 ((((w.logLine "开始迁移 tenant_info 表...").emit (.query tenantQuery)).emit
      (.prepare tenantInsert)).emit .txBegin) (by simpa using hexec) (by simpa using hbad)
  have hf := rowLoop_frame tenantInsert tenantProgress tenantArgs env.tenant.execErr
    (pre.map Except.ok ++ bad :: post) [] 0
    ((((w.logLine "开始迁移 tenant_info 表...").emit (.query tenantQuery)).emit
      (.prepare tenantInsert)).emit .txBegin)
  generalize rowLoop tenantInsert tenantProgress tenantArgs env.tenant.execErr
    (pre.map Except.ok ++ bad :: post) [] 0 _ = res at hl hf ⊢
  obtain ⟨wl, r⟩ := res
  simp only [emit_trace, logLine_trace, emit_tenant_info, logLine_tenant_info, emit_config_info,
    logLine_config_info, emit_openDBs, logLine_openDBs] at hl hf
  obtain ⟨⟨err, rfl, herr⟩, htrace⟩ := hl
  obtain ⟨hf1, hf2, -, -⟩ := hf
  simp [runDefers, htrace, hf1, hf2, herr]

/-- What `MigrateTenantInfo` does in every run: the calls it may add to
the trace, and what it leaves alone. -/
theorem tenant_any (m : Migrator) (env : Env) (w : World) :
    (∃ new, (m.MigrateTenantInfo env w).1.trace = w.trace ++ new
        ∧ (∀ e ∈ new, tableEvent tenantQuery tenantInsert tenantArgs e)
        ∧ Event.query tenantQuery ∈ new)
      ∧ (m.MigrateTenantInfo env w).1.config_info = w.config_info
      ∧ (m.MigrateTenantInfo env w).1.openDBs = w.openDBs
      ∧ (∀ err, (m.MigrateTenantInfo env w).2 = some err →
          (m.MigrateTenantInfo env w).1.tenant_info = w.tenant_info) := by
  unfold Migrator.MigrateTenantInfo
  cases hq : env.tenant.queryErr with
  | some e =>
    refine ⟨⟨[.query tenantQuery], by simp, by simp [tableEvent], by simp⟩, by simp⟩
  | none =>
  cases hp : env.tenant.prepareErr with
  | some e =>
    refine ⟨⟨[.query tenantQuery, .prepare tenantInsert, .rowsClose], by simp,
      by simp [tableEvent], by simp⟩, by simp⟩
  | none =>
  cases hb : env.tenant.beginErr with
  | some e =>
    refine ⟨⟨[.query tenantQuery, .prepare tenantInsert, .txBegin, .stmtClose, .rowsClose],
      by simp [runDefers], by simp [tableEvent], by simp⟩, by simp [runDefers]⟩
  | none =>
  simp only [tenantLoop_eq]
  have hl := rowLoop_events tenantInsert tenantProgress tenantArgs env.tenant.execErr
    env.tenant.rows [] 0 ((((w.logLine "开始迁移 tenant_info 表...").emit (.query tenantQuery)).emit
      (.prepare tenantInsert)).emit .txBegin)
  have hf := rowLoop_frame tenantInsert tenantProgress tenantArgs env.tenant.execErr
    env.tenant.rows [] 0 ((((w.logLine "开始迁移 tenant_info 表...").emit (.query tenantQuery)).emit
      (.prepare tenantInsert)).emit .txBegin)
  generalize rowLoop tenantInsert tenantProgress tenantArgs env.tenant.execErr
    env.tenant.rows [] 0 _ = res at hl hf ⊢
  obtain ⟨wl, r⟩ := res
  simp only [emit_trace, logLine_trace, emit_tenant_info, logLine_tenant_info, emit_config_info,
    logLine_config_info, emit_openDBs, logLine_openDBs] at hl hf
  obtain ⟨⟨new, htrace, hnew⟩, -⟩ := hl
  obtain ⟨hf1, hf2, hf3, -⟩ := hf
  have hnew2 : ∀ e ∈ new, tableEvent tenantQuery tenantInsert tenantArgs e := by
    intro e he
    rcases hnew e he with h | h | h | h
    · exact Or.inr (Or.inr (Or.inr (Or.inl h)))
    · exact Or.inr (Or.inr (Or.inr (Or.inr (Or.inl h))))
    · exact Or.inr (Or.inr (Or.inr (Or.inr (Or.inr (Or.inr (Or.inl h))))))
    · exact Or.inr (Or.inr (Or.inr (Or.inr (Or.inr (Or.inr (Or.inr (Or.inr (Or.inr
        (Or.inr h)))))))))
  have hpre : ∀ e ∈ [Event.query tenantQuery, .prepare tenantInsert, .txBegin],
      tableEvent tenantQuery tenantInsert tenantArgs e := by
    simp [tableEvent]
  cases r with
  | error err =>
    refine ⟨⟨[.query tenantQuery, .prepare tenantInsert, .txBegin] ++ new
      ++ [.stmtClose, .rowsClose], by simp [runDefers, htrace], ?_, by simp⟩,
      by simp [runDefers, hf1, hf2, hf3]⟩
    rw [List.forall_mem_append, List.forall_mem_append]
    exact ⟨⟨hpre, hnew2⟩, by simp [tableEvent]⟩
  | ok res =>
    obtain ⟨tx, count⟩ := res
    cases hre : env.tenant.rowsErr with
    | some e =>
      refine ⟨⟨[.query tenantQuery, .prepare tenantInsert, .txBegin] ++ new
        ++ [.rowsErr, .txRollback, .stmtClose, .rowsClose], by simp [runDefers, htrace], ?_, by simp⟩,
        by simp [runDefers, hf1, hf2, hf3]⟩
      rw [List.forall_mem_append, List.forall_mem_append]
      exact ⟨⟨hpre, hnew2⟩, by simp [tableEvent]⟩
    | none =>
    cases hc : env.tenant.commitErr with
    | some e =>
      refine ⟨⟨[.query tenantQuery, .prepare tenantInsert, .txBegin] ++ new
        ++ [.rowsErr, .txCommit, .stmtClose, .rowsClose], by simp [runDefers, htrace], ?_, by simp⟩,
        by simp [runDefers, hf1, hf2, hf3]⟩
      rw [List.forall_mem_append, List.forall_mem_append]
      exact ⟨⟨hpre, hnew2⟩, by simp [tableEvent]⟩
    | none =>
      refine ⟨⟨[.query tenantQuery, .prepare tenantInsert, .txBegin] ++ new
        ++ [.rowsErr, .txCommit, .stmtClose, .rowsClose], by simp [runDefers, htrace], ?_, by simp⟩,
        by simp [runDefers, hf1, hf2, hf3]⟩
      rw [List.forall_mem_append, List.forall_mem_append]
      exact ⟨⟨hpre, hnew2⟩, by simp [tableEvent]⟩

/-- The run of `MigrateConfigInfo` when all rows are read and inserted
without error, up to and including the commit. -/
theorem config_rowsOk (m : Migrator) (env : Env) (w : World) (src : List ConfigSrcRow)
    (h : env.config.RowsOk src) :
    (m.MigrateConfigInfo env w).1.trace
        = w.trace ++ [.query configQuery, .prepare configInsert, .txBegin]
          ++ okRowEvents configInsert (configArgs (env.now (w.trace.length + 3))) src
          ++ [.rowsNext, .rowsErr, .txCommit, .stmtClose, .rowsClose]
      ∧ (m.MigrateConfigInfo env w).1.tenant_info = w.tenant_info
      ∧ (m.MigrateConfigInfo env w).1.openDBs = w.openDBs
      ∧ (∀ e, env.config.commitErr = some e →
          (m.MigrateConfigInfo env w).2 = some (.commitTx e)
            ∧ (m.MigrateConfigInfo env w).1.config_info = w.config_info)
      ∧ (env.config.commitErr = none →
          (m.MigrateConfigInfo env w).2 = none
            ∧ (m.MigrateConfigInfo env w).1.config_info
                = w.config_info ++ src.map (configArgs (env.now (w.trace.length + 3)))
            ∧ (m.MigrateConfigInfo env w).1.log.getLast?
                = some ("config_info 表迁移完成，共迁移 " ++ toString src.length ++ " 条记录")) := by
  obtain ⟨hq, hp, hb, hrows, hexec, hre⟩ := h
  have ht : timeNow env ((((w.logLine "开始迁移 config_info 表...").emit (.query configQuery)).emit
      (.prepare configInsert)).emit .txBegin) = env.now (w.trace.length + 3) := by
    simp [timeNow]
  unfold Migrator.MigrateConfigInfo
  simp only [hq, hp, hb, hre, configLoop_eq, hrows, ht]
  have hl := rowLoop_ok configInsert configProgress
    (configArgs (env.now (w.trace.length + 3))) env.config.execErr src [] 0
    ((((w.logLine "开始迁移 config_info 表...").emit (.query configQuery)).emit
      (.prepare configInsert)).emit .txBegin) (by simpa using hexec)
  have hf := rowLoop_frame configInsert configProgress
    (configArgs (env.now (w.trace.length + 3))) env.config.execErr
    (src.map Except.ok) [] 0
    ((((w.logLine "开始迁移 config_info 表...").emit (.query configQuery)).emit
      (.prepare configInsert)).emit .txBegin)
  generalize rowLoop configInsert configProgress
    (configArgs (env.now (w.trace.length + 3))) env.config.execErr
    (src.map Except.ok) [] 0 _ = res at hl hf ⊢
  obtain ⟨wl, r⟩ := res
  simp only [emit_trace, logLine_trace, emit_tenant_info, logLine_tenant_info, emit_config_info,
    logLine_config_info, emit_openDBs, logLine_openDBs, List.nil_append, Nat.zero_add] at hl hf
  obtain ⟨rfl, htrace⟩ := hl
  obtain ⟨hf1, hf2, hf3, -⟩ := hf
  cases hc : env.config.commitErr with
  | some e => simp [runDefers, htrace, hf1, hf2, hf3]
  | none => simp [runDefers, htrace, hf1, hf2, hf3]

/-- The run of `MigrateConfigInfo` when a row fails after the rows `pre`. -/
theorem config_fail (m : Migrator) (env : Env) (w : World) (pre : List ConfigSrcRow)
    (bad : Except String ConfigSrcRow) (post : List (Except String ConfigSrcRow))
    (h : env.config.FailsAfter pre bad post) :
    (∃ err, (m.MigrateConfigInfo env w).2 = some err
        ∧ ((∃ e, err = .scanRow e) ∨ (∃ e, err = .insertRow e)))
      ∧ (m.MigrateConfigInfo env w).1.trace
        = w.trace ++ [.query configQuery, .prepare configInsert, .txBegin]
          ++ okRowEvents configInsert (configArgs (env.now (w.trace.length + 3))) pre
          ++ badRowEvents configInsert (configArgs (env.now (w.trace.length + 3))) bad
          ++ [.txRollback, .stmtClose, .rowsClose]
      ∧ (m.MigrateConfigInfo env w).1.config_info = w.config_info
      ∧ (m.MigrateConfigInfo env w).1.tenant_info = w.tenant_info := by
  obtain ⟨hq, hp, hb, hrows, hexec, hbad⟩ := h
  have ht : timeNow env ((((w.logLine "开始迁移 config_info 表...").emit (.query configQuery)).emit
      (.prepare configInsert)).emit .txBegin) = env.now (w.trace.length + 3) := by
    simp [timeNow]
  unfold Migrator.MigrateConfigInfo
  simp only [hq, hp, hb, configLoop_eq, hrows, ht]
  have hl := rowLoop_fail configInsert configProgress
    (configArgs (env.now (w.trace.length + 3))) env.config.execErr pre bad post
    [] 0 ((((w.logLine "开始迁移 config_info 表...").emit (.query configQuery)).emit
      (.prepare configInsert)).emit .txBegin) (by simpa using hexec) (by simpa using hbad)
  have hf := rowLoop_frame configInsert configProgress
    (configArgs (env.now (w.trace.length + 3))) env.config.execErr
    (pre.map Except.ok ++ bad :: post) [] 0
    ((((w.logLine "开始迁移 config_info 表...").emit (.query configQuery)).emit
      (.prepare configInsert)).emit .txBegin)
  generalize rowLoop configInsert configProgress
    (configArgs (env.now (w.trace.length + 3))) env.config.execErr
    (pre.map Except.ok ++ bad :: post) [] 0 _ = res at hl hf ⊢
  obtain ⟨wl, r⟩ := res
  simp only [emit_trace, logLine_trace, emit_tenant_info, logLine_tenant_info, emit_config_info,
    logLine_config_info, emit_openDBs, logLine_openDBs] at hl hf
  obtain ⟨⟨err, rfl, herr⟩, htrace⟩ := hl
  obtain ⟨hf1, hf2, -, -⟩ := hf
  simp [runDefers, htrace, hf1, hf2, herr]

/-- What `MigrateConfigInfo` does in every run: the calls it may add to
the trace, and what it leaves alone. -/
theorem config_any (m : Migrator) (env : Env) (w : World) :
    (∃ new, (m.MigrateConfigInfo env w).1.trace = w.trace ++ new
        ∧ (∀ e ∈ new,
            tableEvent configQuery configInsert (configArgs (env.now (w.trace.length + 3))) e)
        ∧ Event.query configQuery ∈ new)
      ∧ (m.MigrateConfigInfo env w).1.tenant_info = w.tenant_info
      ∧ (m.MigrateConfigInfo env w).1.openDBs = w.openDBs
      ∧ (∀ err, (m.MigrateConfigInfo env w).2 = some err →
          (m.MigrateConfigInfo env w).1.config_info = w.config_info) := by
  have ht : timeNow env ((((w.logLine "开始迁移 config_info 表...").emit (.query configQuery)).emit
      (.prepare configInsert)).emit .txBegin) = env.now (w.trace.length + 3) := by
    simp [timeNow]
  unfold Migrator.MigrateConfigInfo
  cases hq : env.config.queryErr with
  | some e =>
    refine ⟨⟨[.query configQuery], by simp, by simp [tableEvent], by simp⟩, by simp⟩
  | none =>
  cases hp : env.config.prepareErr with
  | some e =>
    refine ⟨⟨[.query configQuery, .prepare configInsert, .rowsClose], by simp,
      by simp [tableEvent], by simp⟩, by simp⟩
  | none =>
  cases hb : env.config.beginErr with
  | some e =>
    refine ⟨⟨[.query configQuery, .prepare configInsert, .txBegin, .stmtClose, .rowsClose],
      by simp [runDefers], by simp [tableEvent], by simp⟩, by simp [runDefers]⟩
  | none =>
  simp only [configLoop_eq, ht]
  have hl := rowLoop_events configInsert configProgress
    (configArgs (env.now (w.trace.length + 3))) env.config.execErr
    env.config.rows [] 0 ((((w.logLine "开始迁移 config_info 表...").emit (.query configQuery)).emit
      (.prepare configInsert)).emit .txBegin)
  have hf := rowLoop_frame configInsert configProgress
    (configArgs (env.now (w.trace.length + 3))) env.config.execErr
    env.config.rows [] 0 ((((w.logLine "开始迁移 config_info 表...").emit (.query configQuery)).emit
      (.prepare configInsert)).emit .txBegin)
  generalize rowLoop configInsert configProgress
    (configArgs (env.now (w.trace.length + 3))) env.config.execErr
    env.config.rows [] 0 _ = res at hl hf ⊢
  obtain ⟨wl, r⟩ := res
  simp only [emit_trace, logLine_trace, emit_tenant_info, logLine_tenant_info, emit_config_info,
    logLine_config_info, emit_openDBs, logLine_openDBs] at hl hf
  obtain ⟨⟨new, htrace, hnew⟩, -⟩ := hl
  obtain ⟨hf1, hf2, hf3, -⟩ := hf
  have hnew2 : ∀ e ∈ new,
      tableEvent configQuery configInsert (configArgs (env.now (w.trace.length + 3))) e := by
    intro e he
    rcases hnew e he with h | h | h | h
    · exact Or.inr (Or.inr (Or.inr (Or.inl h)))
    · exact Or.inr (Or.inr (Or.inr (Or.inr (Or.inl h))))
    · exact Or.inr (Or.inr (Or.inr (Or.inr (Or.inr (Or.inr (Or.inl h))))))
    · exact Or.inr (Or.inr (Or.inr (Or.inr (Or.inr (Or.inr (Or.inr (Or.inr (Or.inr
        (Or.inr h)))))))))
  have hpre : ∀ e ∈ [Event.query configQuery, .prepare configInsert, .txBegin],
      tableEvent configQuery configInsert (configArgs (env.now (w.trace.length + 3))) e := by
    simp [tableEvent]
  cases r with
  | error err =>
    refine ⟨⟨[.query configQuery, .prepare configInsert, .txBegin] ++ new
      ++ [.stmtClose, .rowsClose], by simp [runDefers, htrace], ?_, by simp⟩,
      by simp [runDefers, hf1, hf2, hf3]⟩
    rw [List.forall_mem_append, List.forall_mem_append]
    exact ⟨⟨hpre, hnew2⟩, by simp [tableEvent]⟩
  | ok res =>
    obtain ⟨tx, count⟩ := res
    cases hre : env.config.rowsErr with
    | some e =>
      refine ⟨⟨[.query configQuery, .prepare configInsert, .txBegin] ++ new
        ++ [.rowsErr, .txRollback, .stmtClose, .rowsClose], by simp [runDefers, htrace], ?_, by simp⟩,
        by simp [runDefers, hf1, hf2, hf3]⟩
      rw [List.forall_mem_append, List.forall_mem_append]
      exact ⟨⟨hpre, hnew2⟩, by simp [tableEvent]⟩
    | none =>
    cases hc : env.config.commitErr with
    | some e =>
      refine ⟨⟨[.query configQuery, .prepare configInsert, .txBegin] ++ new
        ++ [.rowsErr, .txCommit, .stmtClose, .rowsClose], by simp [runDefers, htrace], ?_, by simp⟩,
        by simp [runDefers, hf1, hf2, hf3]⟩
      rw [List.forall_mem_append, List.forall_mem_append]
      exact ⟨⟨hpre, hnew2⟩, by simp [tableEvent]⟩
    | none =>
      refine ⟨⟨[.query configQuery, .prepare configInsert, .txBegin] ++ new
        ++ [.rowsErr, .txCommit, .stmtClose, .rowsClose], by simp [runDefers, htrace], ?_, by simp⟩,
        by simp [runDefers, hf1, hf2, hf3]⟩
      rw [List.forall_mem_append, List.forall_mem_append]
      exact ⟨⟨hpre, hnew2⟩, by simp [tableEvent]⟩

/-- When `MigrateTenantInfo` returns nil, it has called `Commit`, that
commit succeeded, and the rows added to the table are mapped source rows. -/
theorem tenant_nil (m : Migrator) (env : Env) (w : World)
    (h : (m.MigrateTenantInfo env w).2 = none) :
    env.tenant.commitErr = none
      ∧ Event.txCommit ∈ callsSince w (m.MigrateTenantInfo env w).1
      ∧ ∃ tx, (m.MigrateTenantInfo env w).1.tenant_info = w.tenant_info ++ tx
          ∧ ∀ row ∈ tx, ∃ src, row = tenantArgs src := by
  unfold Migrator.MigrateTenantInfo at h ⊢
  cases hq : env.tenant.queryErr with
  | some e => simp [hq] at h
  | none =>
  cases hp : env.tenant.prepareErr with
  | some e => simp [hq, hp] at h
  | none =>
  cases hb : env.tenant.beginErr with
  | some e => simp [hq, hp, hb] at h
  | none =>
  simp only [hq, hp, hb, tenantLoop_eq] at h ⊢
  have hl := rowLoop_events tenantInsert tenantProgress tenantArgs env.tenant.execErr
    env.tenant.rows [] 0 ((((w.logLine "开始迁移 tenant_info 表...").emit (.query tenantQuery)).emit
      (.prepare tenantInsert)).emit .txBegin)
  have hf := rowLoop_frame tenantInsert tenantProgress tenantArgs env.tenant.execErr
    env.tenant.rows [] 0 ((((w.logLine "开始迁移 tenant_info 表...").emit (.query tenantQuery)).emit
      (.prepare tenantInsert)).emit .txBegin)
  generalize rowLoop tenantInsert tenantProgress tenantArgs env.tenant.execErr
    env.tenant.rows [] 0 _ = res at hl hf h ⊢
  obtain ⟨wl, r⟩ := res
  simp only [emit_trace, logLine_trace, emit_tenant_info, logLine_tenant_info, emit_config_info,
    logLine_config_info, emit_openDBs, logLine_openDBs] at hl hf
  obtain ⟨⟨new, htrace, -⟩, htx⟩ := hl
  obtain ⟨hf1, hf2, -, -⟩ := hf
  cases r with
  | error err => simp at h
  | ok res =>
    obtain ⟨tx, count⟩ := res
    cases hre : env.tenant.rowsErr with
    | some e => simp [hre] at h
    | none =>
    cases hc : env.tenant.commitErr with
    | some e => simp [hre, hc] at h
    | none =>
      refine ⟨rfl, ?_, tx, by simp [runDefers, hf1, hf2], ?_⟩
      · rw [callsSince_append w _ ([.query tenantQuery, .prepare tenantInsert, .txBegin] ++ new
          ++ [.rowsErr, .txCommit, .stmtClose, .rowsClose]) (by simp [runDefers, htrace])]
        simp
      · intro row hrow
        rcases htx tx count rfl row hrow with h0 | h0
        · simp at h0
        · exact h0

/-- When `MigrateConfigInfo` returns nil, it has called `Commit`, that
commit succeeded, and the rows added to the table are mapped source rows. -/
theorem config_nil (m : Migrator) (env : Env) (w : World)
    (h : (m.MigrateConfigInfo env w).2 = none) :
    env.config.commitErr = none
      ∧ Event.txCommit ∈ callsSince w (m.MigrateConfigInfo env w).1
      ∧ ∃ tx, (m.MigrateConfigInfo env w).1.config_info = w.config_info ++ tx
          ∧ ∀ row ∈ tx, ∃ src, row = (configArgs (env.now (w.trace.length + 3))) src := by
  have ht : timeNow env ((((w.logLine "开始迁移 config_info 表...").emit (.query configQuery)).emit
      (.prepare configInsert)).emit .txBegin) = env.now (w.trace.length + 3) := by
    simp [timeNow]
  unfold Migrator.MigrateConfigInfo at h ⊢
  cases hq : env.config.queryErr with
  | some e => simp [hq] at h
  | none =>
  cases hp : env.config.prepareErr with
  | some e => simp [hq, hp] at h
  | none =>
  cases hb : env.config.beginErr with
  | some e => simp [hq, hp, hb] at h
  | none =>
  simp only [hq, hp, hb, configLoop_eq, ht] at h ⊢
  have hl := rowLoop_events configInsert configProgress
    (configArgs (env.now (w.trace.length + 3))) env.config.execErr
    env.config.rows [] 0 ((((w.logLine "开始迁移 config_info 表...").emit (.query configQuery)).emit
      (.prepare configInsert)).emit .txBegin)
  have hf := rowLoop_frame configInsert configProgress
    (configArgs (env.now (w.trace.length + 3))) env.config.execErr
    env.config.rows [] 0 ((((w.logLine "开始迁移 config_info 表...").emit (.query configQuery)).emit
      (.prepare configInsert)).emit .txBegin)
  generalize rowLoop configInsert configProgress
    (configArgs (env.now (w.trace.length + 3))) env.config.execErr
    env.config.rows [] 0 _ = res at hl hf h ⊢
  obtain ⟨wl, r⟩ := res
  simp only [emit_trace, logLine_trace, emit_tenant_info, logLine_tenant_info, emit_config_info,
    logLine_config_info, emit_openDBs, logLine_openDBs] at hl hf
  obtain ⟨⟨new, htrace, -⟩, htx⟩ := hl
  obtain ⟨hf1, hf2, -, -⟩ := hf
  cases r with
  | error err => simp at h
  | ok res =>
    obtain ⟨tx, count⟩ := res
    cases hre : env.config.rowsErr with
    | some e => simp [hre] at h
    | none =>
    cases hc : env.config.commitErr with
    | some e => simp [hre, hc] at h
    | none =>
      refine ⟨rfl, ?_, tx, by simp [runDefers, hf1, hf2], ?_⟩
      · rw [callsSince_append w _ ([.query configQuery, .prepare configInsert, .txBegin] ++ new
          ++ [.rowsErr, .txCommit, .stmtClose, .rowsClose]) (by simp [runDefers, htrace])]
        simp
      · intro row hrow
        rcases htx tx count rfl row hrow with h0 | h0
        · simp at h0
        · exact h0

/-- The run of `MigrateTenantInfo` when the cursor stops with an error
after the rows `pre`. -/
theorem tenant_cursor_fail (m : Migrator) (env : Env) (w : World) (pre : List TenantSrcRow)
    (h : env.tenant.CursorFailsAfter pre) :
    (∃ err, (m.MigrateTenantInfo env w).2 = some err)
      ∧ (m.MigrateTenantInfo env w).1.trace
        = w.trace ++ [.query tenantQuery, .prepare tenantInsert, .txBegin]
          ++ okRowEvents tenantInsert tenantArgs pre
          ++ [.rowsNext, .rowsErr, .txRollback, .stmtClose, .rowsClose]
      ∧ (m.MigrateTenantInfo env w).1.tenant_info = w.tenant_info
      ∧ (m.MigrateTenantInfo env w).1.config_info = w.config_info := by
  obtain ⟨hq, hp, hb, hrows, hexec, hre⟩ := h
  unfold Migrator.MigrateTenantInfo
  simp only [hq, hp, hb, tenantLoop_eq, hrows]
  have hl := rowLoop_ok tenantInsert tenantProgress tenantArgs env.tenant.execErr pre [] 0
    ((((w.logLine "开始迁移 tenant_info 表...").emit (.query tenantQuery)).emit
      (.prepare tenantInsert)).emit .txBegin) (by simpa using hexec)
  have hf := rowLoop_frame tenantInsert tenantProgress tenantArgs env.tenant.execErr
    (pre.map Except.ok) [] 0
    ((((w.logLine "开始迁移 tenant_info 表...").emit (.query tenantQuery)).emit
      (.prepare tenantInsert)).emit .txBegin)
  generalize rowLoop tenantInsert tenantProgress tenantArgs env.tenant.execErr
    (pre.map Except.ok) [] 0 _ = res at hl hf ⊢
  obtain ⟨wl, r⟩ := res
  simp only [emit_trace, logLine_trace, emit_tenant_info, logLine_tenant_info, emit_config_info,
    logLine_config_info, emit_openDBs, logLine_openDBs, List.nil_append, Nat.zero_add] at hl hf
  obtain ⟨rfl, htrace⟩ := hl
  obtain ⟨hf1, hf2, -, -⟩ := hf
  cases hc : env.tenant.rowsErr with
  | some e => simp [runDefers, htrace, hf1, hf2]
  | none => exact absurd hc hre

/-- The run of `MigrateConfigInfo` when the cursor stops with an error
after the rows `pre`. -/
theorem config_cursor_fail (m : Migrator) (env : Env) (w : World) (pre : List ConfigSrcRow)
    (h : env.config.CursorFailsAfter pre) :
    (∃ err, (m.MigrateConfigInfo env w).2 = some err)
      ∧ (m.MigrateConfigInfo env w).1.trace
        = w.trace ++ [.query configQuery, .prepare configInsert, .txBegin]
          ++ okRowEvents configInsert (configArgs (env.now (w.trace.length + 3))) pre
          ++ [.rowsNext, .rowsErr, .txRollback, .stmtClose, .rowsClose]
      ∧ (m.MigrateConfigInfo env w).1.config_info = w.config_info
      ∧ (m.MigrateConfigInfo env w).1.tenant_info = w.tenant_info := by
  obtain ⟨hq, hp, hb, hrows, hexec, hre⟩ := h
  have ht : timeNow env ((((w.logLine "开始迁移 config_info 表...").emit (.query configQuery)).emit
      (.prepare configInsert)).emit .txBegin) = env.now (w.trace.length + 3) := by
    simp [timeNow]
  unfold Migrator.MigrateConfigInfo
  simp only [hq, hp, hb, configLoop_eq, hrows, ht]
  have hl := rowLoop_ok configInsert configProgress
    (configArgs (env.now (w.trace.length + 3))) env.config.execErr pre [] 0
    ((((w.logLine "开始迁移 config_info 表...").emit (.query configQuery)).emit
      (.prepare configInsert)).emit .txBegin) (by simpa using hexec)
  have hf := rowLoop_frame configInsert configProgress
    (configArgs (env.now (w.trace.length + 3))) env.config.execErr
    (pre.map Except.ok) [] 0
    ((((w.logLine "开始迁移 config_info 表...").emit (.query configQuery)).emit
      (.prepare configInsert)).emit .txBegin)
  generalize rowLoop configInsert configProgress
    (configArgs (env.now (w.trace.length + 3))) env.config.execErr
    (pre.map Except.ok) [] 0 _ = res at hl hf ⊢
  obtain ⟨wl, r⟩ := res
  simp only [emit_trace, logLine_trace, emit_tenant_info, logLine_tenant_info, emit_config_info,
    logLine_config_info, emit_openDBs, logLine_openDBs, List.nil_append, Nat.zero_add] at hl hf
  obtain ⟨rfl, htrace⟩ := hl
  obtain ⟨hf1, hf2, -, -⟩ := hf
  cases hc : env.config.rowsErr with
  | some e => simp [runDefers, htrace, hf1, hf2]
  | none => exact absurd hc hre

/-! ## `NewMigrator` -/

/-- When both engine kinds are supported, `NewMigrator` never fails with
an unsupported-engine error. -/
theorem NewMigrator_supported (env : Env) (config : Config) (w : World)
    (hs : config.Source.Type_ = "mysql") (ht : config.Target.Type_ = "postgresql")
    (err : MigErr) (h : (NewMigrator env config w).2 = .error err) :
    err.isUnsupportedEngine = false := by
  unfold NewMigrator at h
  simp only [hs, ht, ne_eq, not_true_eq_false, if_false, sqlOpen, dbPing] at h
  cases h1 : env.openErr ⟨"mysql", mysqlDSN config⟩ with
  | some e => simp only [h1, Except.error.injEq] at h; subst h; rfl
  | none =>
  cases h2 : env.pingErr ⟨"mysql", mysqlDSN config⟩ with
  | some e => simp only [h1, h2, Except.error.injEq] at h; subst h; rfl
  | none =>
  cases h3 : env.openErr ⟨"postgres", pgDSN config⟩ with
  | some e => simp only [h1, h2, h3, Except.error.injEq] at h; subst h; rfl
  | none =>
  cases h4 : env.pingErr ⟨"postgres", pgDSN config⟩ with
  | some e => simp only [h1, h2, h3, h4, Except.error.injEq] at h; subst h; rfl
  | none => simp [h1, h2, h3, h4] at h

/-! ## Row mapping, atomicity, commit -/

theorem happyEnv_tenant_errorFree : happyEnv.tenant.ErrorFree sampleTenants := by
  simp [TableEnv.ErrorFree, TableEnv.RowsOk, happyEnv, envWith, okTable]

theorem happyEnv_config_errorFree : happyEnv.config.ErrorFree sampleConfigs := by
  simp [TableEnv.ErrorFree, TableEnv.RowsOk, happyEnv, envWith, okTable]

/-- C1: when no step of the migration fails, `MigrateTenantInfo` adds to
`tenant_info` exactly one row per source row, in cursor order, each of the
three columns holding the source value or, for NULL, the empty string;
`MigrateConfigInfo` does the same for the first five columns of
`config_info`.  No added value is NULL. -/
theorem migrate_copies_rows_null_as_empty (m : Migrator) (env : Env) (w : World) :
    (∀ src : List TenantSrcRow, env.tenant.ErrorFree src →
        (m.MigrateTenantInfo env w).2 = none
          ∧ (m.MigrateTenantInfo env w).1.tenant_info = w.tenant_info ++ src.map tenantRowSpec
          ∧ (∀ row ∈ src.map tenantRowSpec, SqlValue.null ∉ row))
      ∧ (∀ src : List ConfigSrcRow, env.config.ErrorFree src →
        (m.MigrateConfigInfo env w).2 = none
          ∧ ∃ added, (m.MigrateConfigInfo env w).1.config_info = w.config_info ++ added
              ∧ added.map (List.take 5) = src.map configRowSpec
              ∧ (∀ row ∈ added, SqlValue.null ∉ row)) := by
  constructor
  · intro src h
    obtain ⟨-, -, -, -, hok⟩ := tenant_rowsOk m env w src h.1
    obtain ⟨h1, h2, -⟩ := hok h.2
    refine ⟨h1, ?_, ?_⟩
    · rw [h2]
      congr 1
      exact List.map_congr_left (fun r _ => tenantArgs_eq r)
    · intro row hrow
      obtain ⟨r, -, rfl⟩ := List.mem_map.mp hrow
      simp [tenantRowSpec]
  · intro src h
    obtain ⟨-, -, -, -, hok⟩ := config_rowsOk m env w src h.1
    obtain ⟨h1, h2, -⟩ := hok h.2
    refine ⟨h1, src.map (configArgs (env.now (w.trace.length + 3))), h2, ?_, ?_⟩
    · rw [List.map_map]
      apply List.map_congr_left
      intro r _
      simp [configArgs_eq, configRowSpec]
    · intro row hrow
      obtain ⟨r, -, rfl⟩ := List.mem_map.mp hrow
      simp [configArgs_eq, configRowSpec]

/-- The tenant rows `(1,'acme','desc')`, `(2,NULL,'x')` arrive as
`(1,'acme','desc')`, `(2,'','x')`, and the config run succeeds. -/
theorem migrate_copies_rows_null_as_empty_witness :
    happyEnv.tenant.ErrorFree sampleTenants
      ∧ (sampleMigrator.MigrateTenantInfo happyEnv emptyWorld).2 = none
      ∧ (sampleMigrator.MigrateTenantInfo happyEnv emptyWorld).1.tenant_info
          = [[.text "1", .text "acme", .text "desc"], [.text "2", .text "", .text "x"]]
      ∧ happyEnv.config.ErrorFree sampleConfigs
      ∧ (sampleMigrator.MigrateConfigInfo happyEnv emptyWorld).2 = none :=
  ⟨happyEnv_tenant_errorFree,
    ((migrate_copies_rows_null_as_empty sampleMigrator happyEnv emptyWorld).1 sampleTenants
      happyEnv_tenant_errorFree).1,
    ((migrate_copies_rows_null_as_empty sampleMigrator happyEnv emptyWorld).1 sampleTenants
      happyEnv_tenant_errorFree).2.1,
    happyEnv_config_errorFree,
    ((migrate_copies_rows_null_as_empty sampleMigrator happyEnv emptyWorld).2 sampleConfigs
      happyEnv_config_errorFree).1⟩

theorem okRowEvents_no_commit {α : Type} (stmt : String) (mk : α → TargetRow) (src : List α) :
    (okRowEvents stmt mk src).count .txCommit = 0 := by
  induction src with
  | nil => rfl
  | cons r rest ih => simp [okRowEvents, ih]

/-- C2: when the read or the insert of row `k` fails (after `k - 1` rows
that went through), the migrator rolls the transaction back right after
the failing call, makes no call for any later row, never commits, returns
an error, and leaves both committed tables as they were.  The failing read
is a failing `Scan` (first and third part) or a cursor that stops with an
error instead of yielding row `k` (second and fourth part). -/
theorem migrate_row_failure_rolls_back (m : Migrator) (env : Env) (w : World) :
    (∀ pre bad post, env.tenant.FailsAfter pre bad post →
        (∃ err, (m.MigrateTenantInfo env w).2 = some err)
          ∧ (m.MigrateTenantInfo env w).1.trace
            = w.trace ++ [.query tenantQuery, .prepare tenantInsert, .txBegin]
              ++ okRowEvents tenantInsert tenantArgs pre
              ++ badRowEvents tenantInsert tenantArgs bad
              ++ [.txRollback, .stmtClose, .rowsClose]
          ∧ (m.MigrateTenantInfo env w).1.tenant_info = w.tenant_info
          ∧ (m.MigrateTenantInfo env w).1.config_info = w.config_info)
      ∧ (∀ pre, env.tenant.CursorFailsAfter pre →
        (∃ err, (m.MigrateTenantInfo env w).2 = some err)
          ∧ (m.MigrateTenantInfo env w).1.trace
            = w.trace ++ [.query tenantQuery, .prepare tenantInsert, .txBegin]
              ++ okRowEvents tenantInsert tenantArgs pre
              ++ [.rowsNext, .rowsErr, .txRollback, .stmtClose, .rowsClose]
          ∧ (m.MigrateTenantInfo env w).1.tenant_info = w.tenant_info
          ∧ (m.MigrateTenantInfo env w).1.config_info = w.config_info)
      ∧ (∀ pre bad post, env.config.FailsAfter pre bad post →
        (∃ err, (m.MigrateConfigInfo env w).2 = some err)
          ∧ (m.MigrateConfigInfo env w).1.trace
            = w.trace ++ [.query configQuery, .prepare configInsert, .txBegin]
              ++ okRowEvents configInsert (configArgs (env.now (w.trace.length + 3))) pre
              ++ badRowEvents configInsert (configArgs (env.now (w.trace.length + 3))) bad
              ++ [.txRollback, .stmtClose, .rowsClose]
          ∧ (m.MigrateConfigInfo env w).1.config_info = w.config_info
          ∧ (m.MigrateConfigInfo env w).1.tenant_info = w.tenant_info)
      ∧ (∀ pre, env.config.CursorFailsAfter pre →
        (∃ err, (m.MigrateConfigInfo env w).2 = some err)
          ∧ (m.MigrateConfigInfo env w).1.trace
            = w.trace ++ [.query configQuery, .prepare configInsert, .txBegin]
              ++ okRowEvents configInsert (configArgs (env.now (w.trace.length + 3))) pre
              ++ [.rowsNext, .rowsErr, .txRollback, .stmtClose, .rowsClose]
          ∧ (m.MigrateConfigInfo env w).1.config_info = w.config_info
          ∧ (m.MigrateConfigInfo env w).1.tenant_info = w.tenant_info) := by
  refine ⟨?_, ?_, ?_, ?_⟩
  · intro pre bad post h
    obtain ⟨⟨err, h1, -⟩, h2, h3, h4⟩ := tenant_fail m env w pre bad post h
    exact ⟨⟨err, h1⟩, h2, h3, h4⟩
  · intro pre h
    exact tenant_cursor_fail m env w pre h
  · intro pre bad post h
    obtain ⟨⟨err, h1, -⟩, h2, h3, h4⟩ := config_fail m env w pre bad post h
    exact ⟨⟨err, h1⟩, h2, h3, h4⟩
  · intro pre h
    exact config_cursor_fail m env w pre h

theorem secondInsertFails_tenant : secondInsertFailsEnv.tenant.FailsAfter
    [⟨some "1", some "acme", some "desc"⟩] (.ok ⟨some "2", none, some "x"⟩)
    [.ok thirdTenant] := by
  simp [TableEnv.FailsAfter, secondInsertFailsEnv, envWith, okTable, sampleTenants]

/-- Three tenant rows, the insert of the second fails: the first row is
not committed and the third is never read. -/
theorem migrate_row_failure_rolls_back_witness :
    (sampleMigrator.MigrateTenantInfo secondInsertFailsEnv emptyWorld).1.tenant_info = []
      ∧ (sampleMigrator.MigrateTenantInfo secondInsertFailsEnv emptyWorld).1.trace
        = [.query tenantQuery, .prepare tenantInsert, .txBegin,
            .rowsNext, .rowsScan, .exec tenantInsert [.text "1", .text "acme", .text "desc"],
            .rowsNext, .rowsScan, .exec tenantInsert [.text "2", .text "", .text "x"],
            .txRollback, .stmtClose, .rowsClose] :=
  ⟨((migrate_row_failure_rolls_back sampleMigrator secondInsertFailsEnv emptyWorld).1 _ _ _
      secondInsertFails_tenant).2.2.1,
    ((migrate_row_failure_rolls_back sampleMigrator secondInsertFailsEnv emptyWorld).1 _ _ _
      secondInsertFails_tenant).2.1⟩

/-- C9: when every row is read and inserted without error, the migrator
calls `Commit` exactly once, after the cursor is exhausted; if that commit
fails it returns the commit error and the target table is as before. -/
theorem migrate_commits_once (m : Migrator) (env : Env) (w : World) :
    (∀ src, env.tenant.RowsOk src →
        (m.MigrateTenantInfo env w).1.trace
            = w.trace ++ [.query tenantQuery, .prepare tenantInsert, .txBegin]
              ++ okRowEvents tenantInsert tenantArgs src
              ++ [.rowsNext, .rowsErr, .txCommit, .stmtClose, .rowsClose]
          ∧ (callsSince w (m.MigrateTenantInfo env w).1).count .txCommit = 1
          ∧ (∀ e, env.tenant.commitErr = some e →
              (m.MigrateTenantInfo env w).2 = some (.commitTx e)
                ∧ (m.MigrateTenantInfo env w).1.tenant_info = w.tenant_info))
      ∧ (∀ src, env.config.RowsOk src →
        (m.MigrateConfigInfo env w).1.trace
            = w.trace ++ [.query configQuery, .prepare configInsert, .txBegin]
              ++ okRowEvents configInsert (configArgs (env.now (w.trace.length + 3))) src
              ++ [.rowsNext, .rowsErr, .txCommit, .stmtClose, .rowsClose]
          ∧ (callsSince w (m.MigrateConfigInfo env w).1).count .txCommit = 1
          ∧ (∀ e, env.config.commitErr = some e →
              (m.MigrateConfigInfo env w).2 = some (.commitTx e)
                ∧ (m.MigrateConfigInfo env w).1.config_info = w.config_info)) := by
  constructor
  · intro src h
    obtain ⟨h1, -, -, h4, -⟩ := tenant_rowsOk m env w src h
    refine ⟨h1, ?_, h4⟩
    rw [callsSince_append w _ _ (by rw [h1, List.append_assoc, List.append_assoc])]
    simp [okRowEvents_no_commit]
  · intro src h
    obtain ⟨h1, -, -, h4, -⟩ := config_rowsOk m env w src h
    refine ⟨h1, ?_, h4⟩
    rw [callsSince_append w _ _ (by rw [h1, List.append_assoc, List.append_assoc])]
    simp [okRowEvents_no_commit]

theorem commitFails_tenant_rowsOk : commitFailsEnv.tenant.RowsOk sampleTenants := by
  simp [TableEnv.RowsOk, commitFailsEnv, envWith, okTable]

/-- Two tenant rows go through and the commit fails: the commit error is
returned and `tenant_info` stays empty. -/
theorem migrate_commits_once_witness :
    (sampleMigrator.MigrateTenantInfo commitFailsEnv emptyWorld).2
        = some (.commitTx "connection lost")
      ∧ (sampleMigrator.MigrateTenantInfo commitFailsEnv emptyWorld).1.tenant_info = [] :=
  ((migrate_commits_once sampleMigrator commitFailsEnv emptyWorld).1 sampleTenants
    commitFails_tenant_rowsOk).2.2 "connection lost" rfl

/-- C4, as the code has it: a table migrator returns only an error value;
when the migration meets no error it returns nil, its last log line
reports a count equal to the number of rows the source query yields
(0 for an empty table), and `Commit` is called exactly once. -/
theorem migrate_logs_row_count (m : Migrator) (env : Env) (w : World) :
    (∀ src, env.tenant.ErrorFree src →
        (m.MigrateTenantInfo env w).2 = none
          ∧ (m.MigrateTenantInfo env w).1.log.getLast?
              = some ("tenant_info 表迁移完成，共迁移 " ++ toString src.length ++ " 条记录")
          ∧ (callsSince w (m.MigrateTenantInfo env w).1).count .txCommit = 1)
      ∧ (∀ src, env.config.ErrorFree src →
        (m.MigrateConfigInfo env w).2 = none
          ∧ (m.MigrateConfigInfo env w).1.log.getLast?
              = some ("config_info 表迁移完成，共迁移 " ++ toString src.length ++ " 条记录")
          ∧ (callsSince w (m.MigrateConfigInfo env w).1).count .txCommit = 1) := by
  constructor
  · intro src h
    obtain ⟨h1, -, -, -, hok⟩ := tenant_rowsOk m env w src h.1
    obtain ⟨h2, -, h3⟩ := hok h.2
    refine ⟨h2, h3, ?_⟩
    rw [callsSince_append w _ _ (by rw [h1, List.append_assoc, List.append_assoc])]
    simp [okRowEvents_no_commit]
  · intro src h
    obtain ⟨h1, -, -, -, hok⟩ := config_rowsOk m env w src h.1
    obtain ⟨h2, -, h3⟩ := hok h.2
    refine ⟨h2, h3, ?_⟩
    rw [callsSince_append w _ _ (by rw [h1, List.append_assoc, List.append_assoc])]
    simp [okRowEvents_no_commit]

theorem emptyEnv_config_errorFree : emptyEnv.config.ErrorFree [] := by
  simp [TableEnv.ErrorFree, TableEnv.RowsOk, emptyEnv, envWith, okTable]

/-- An empty `config_info`: no error, a logged count of 0, one commit. -/
theorem migrate_logs_row_count_witness :
    emptyEnv.config.ErrorFree []
      ∧ (sampleMigrator.MigrateConfigInfo emptyEnv emptyWorld).2 = none
      ∧ (sampleMigrator.MigrateConfigInfo emptyEnv emptyWorld).1.log.getLast?
          = some ("config_info 表迁移完成，共迁移 " ++ toString (0 : Nat) ++ " 条记录")
      ∧ (callsSince emptyWorld
          (sampleMigrator.MigrateConfigInfo emptyEnv emptyWorld).1).count .txCommit = 1 :=
  ⟨emptyEnv_config_errorFree,
    (migrate_logs_row_count sampleMigrator emptyEnv emptyWorld).2 [] emptyEnv_config_errorFree⟩

/-- C4, as stated, fails: the whole value `MigrateTenantInfo` returns is
nil both for a source of two rows and for an empty source, so it is not a
row count. -/
theorem migrate_returns_no_count :
    (sampleMigrator.MigrateTenantInfo happyEnv emptyWorld).2 = none
      ∧ (sampleMigrator.MigrateTenantInfo emptyEnv emptyWorld).2 = none
      ∧ happyEnv.tenant.rows.length = 2
      ∧ emptyEnv.tenant.rows.length = 0 := by
  refine ⟨?_, ?_, rfl, rfl⟩
  · exact (tenant_rowsOk sampleMigrator happyEnv emptyWorld sampleTenants
      happyEnv_tenant_errorFree.1).2.2.2.2 rfl |>.1
  · have h : emptyEnv.tenant.RowsOk [] := by
      simp [TableEnv.RowsOk, emptyEnv, envWith, okTable]
    exact (tenant_rowsOk sampleMigrator emptyEnv emptyWorld [] h).2.2.2.2 rfl |>.1

/-! ## Version and creation time of config rows -/

/-- C3: in every run of `MigrateConfigInfo`, whatever the clock reads
later, each insert it executes and each row it commits has version 1 and
the creation time read once, right after the transaction was opened and
before the first row: all rows of the run share it. -/
theorem config_rows_share_create_time (m : Migrator) (env : Env) (w : World) :
    (∀ stmt args, Event.exec stmt args ∈ callsSince w (m.MigrateConfigInfo env w).1 →
        stmt = configInsert ∧ args[5]? = some (.int 1)
          ∧ args[6]? = some (.timestamp (env.now (w.trace.length + 3))))
      ∧ (∀ row ∈ (m.MigrateConfigInfo env w).1.config_info, row ∈ w.config_info
          ∨ (row[5]? = some (.int 1)
            ∧ row[6]? = some (.timestamp (env.now (w.trace.length + 3))))) := by
  constructor
  · intro stmt args hmem
    obtain ⟨⟨new, htrace, hnew, -⟩, -⟩ := config_any m env w
    rw [callsSince_append w _ new htrace] at hmem
    have h := hnew _ hmem
    simp only [tableEvent, Event.exec.injEq, reduceCtorEq, false_or] at h
    obtain ⟨src, rfl, rfl⟩ := h
    simp [configArgs]
  · intro row hrow
    cases hres : (m.MigrateConfigInfo env w).2 with
    | some err =>
      obtain ⟨-, -, -, h4⟩ := config_any m env w
      rw [h4 err hres] at hrow
      exact Or.inl hrow
    | none =>
      obtain ⟨-, -, tx, h1, h2⟩ := config_nil m env w hres
      rw [h1] at hrow
      rcases List.mem_append.mp hrow with hr | hr
      · exact Or.inl hr
      · obtain ⟨src, rfl⟩ := h2 row hr
        exact Or.inr (by simp [configArgs])

/-- With a clock that advances at every database call, both config rows
of the sample run carry the reading 1003 taken before the loop. -/
theorem config_rows_share_create_time_witness :
    (sampleMigrator.MigrateConfigInfo happyEnv emptyWorld).1.config_info
        = [[.text "app.yaml", .text "DEFAULT_GROUP", .text "a: 1", .text "1", .text "yaml",
              .int 1, .timestamp 1003],
            [.text "db.json", .text "DEFAULT_GROUP", .text "x", .text "2", .text "",
              .int 1, .timestamp 1003]]
      ∧ ([SqlValue.text "db.json", .text "DEFAULT_GROUP", .text "x", .text "2", .text "",
              .int 1, .timestamp 1003] ∈ emptyWorld.config_info
          ∨ ([SqlValue.text "db.json", .text "DEFAULT_GROUP", .text "x", .text "2", .text "",
              .int 1, .timestamp 1003][5]? = some (.int 1)
            ∧ [SqlValue.text "db.json", .text "DEFAULT_GROUP", .text "x", .text "2", .text "",
              .int 1, .timestamp 1003][6]?
                = some (.timestamp (happyEnv.now (emptyWorld.trace.length + 3))))) := by
  have hinfo : (sampleMigrator.MigrateConfigInfo happyEnv emptyWorld).1.config_info
      = [[.text "app.yaml", .text "DEFAULT_GROUP", .text "a: 1", .text "1", .text "yaml",
            .int 1, .timestamp 1003],
          [.text "db.json", .text "DEFAULT_GROUP", .text "x", .text "2", .text "",
            .int 1, .timestamp 1003]] :=
    ((config_rowsOk sampleMigrator happyEnv emptyWorld sampleConfigs
      happyEnv_config_errorFree.1).2.2.2.2 rfl).2.1
  exact ⟨hinfo, (config_rows_share_create_time sampleMigrator happyEnv emptyWorld).2 _
    (by rw [hinfo]; simp)⟩

/-! ## Engine kinds and connections -/

/-- C7: `NewMigrator` fails with an unsupported-engine error exactly when
the source kind is not "mysql" or the target kind is not "postgresql".
It then makes no database call at all (the world is returned unchanged),
and the error names the side and the value given, the source side when
both kinds are unsupported. -/
theorem NewMigrator_unsupportedEngine (env : Env) (config : Config) (w : World) :
    ((∃ err, (NewMigrator env config w).2 = .error err ∧ err.isUnsupportedEngine = true)
        ↔ (config.Source.Type_ ≠ "mysql" ∨ config.Target.Type_ ≠ "postgresql"))
      ∧ (config.Source.Type_ ≠ "mysql" →
          NewMigrator env config w = (w, .error (.unsupportedSource config.Source.Type_)))
      ∧ (config.Source.Type_ = "mysql" → config.Target.Type_ ≠ "postgresql" →
          NewMigrator env config w = (w, .error (.unsupportedTarget config.Target.Type_)))
      ∧ (MigErr.unsupportedSource config.Source.Type_).Error
          = "不支持的数据源类型: " ++ config.Source.Type_ ++ "，目前只支持 mysql"
      ∧ (MigErr.unsupportedTarget config.Target.Type_).Error
          = "不支持的目标数据库类型: " ++ config.Target.Type_ ++ "，目前只支持 postgresql" := by
  have hsrc : config.Source.Type_ ≠ "mysql" →
      NewMigrator env config w = (w, .error (.unsupportedSource config.Source.Type_)) := by
    intro h
    simp [NewMigrator, h]
  have htgt : config.Source.Type_ = "mysql" → config.Target.Type_ ≠ "postgresql" →
      NewMigrator env config w = (w, .error (.unsupportedTarget config.Target.Type_)) := by
    intro h1 h2
    simp [NewMigrator, h1, h2]
  refine ⟨⟨?_, ?_⟩, hsrc, htgt, rfl, rfl⟩
  · rintro ⟨err, herr, hun⟩
    by_contra hcon
    simp only [ne_eq, not_or, not_not] at hcon
    have := NewMigrator_supported env config w hcon.1 hcon.2 err herr
    rw [this] at hun
    cases hun
  · intro h
    by_cases hs : config.Source.Type_ = "mysql"
    · have ht : config.Target.Type_ ≠ "postgresql" := by
        rcases h with h | h
        · exact absurd hs h
        · exact h
      exact ⟨.unsupportedTarget config.Target.Type_, by rw [htgt hs ht], rfl⟩
    · exact ⟨.unsupportedSource config.Source.Type_, by rw [hsrc hs], rfl⟩

/-- The source kind `oracle` is refused by name, and no connection is
attempted. -/
theorem NewMigrator_unsupportedEngine_witness :
    oracleConfig.Source.Type_ ≠ "mysql"
      ∧ NewMigrator happyEnv oracleConfig emptyWorld
          = (emptyWorld, .error (.unsupportedSource "oracle")) :=
  ⟨by decide, (NewMigrator_unsupportedEngine happyEnv oracleConfig emptyWorld).2.1 (by decide)⟩

/-- C6, at a failing input: the source opens and answers the ping, the
target does not answer the ping.  `NewMigrator` returns the ping error,
has made no `Close` call, and both handles it opened are still open. -/
theorem NewMigrator_leaves_source_open :
    (NewMigrator targetDownEnv sampleConfig emptyWorld).2
        = .error (.pgPing "connection refused")
      ∧ (NewMigrator targetDownEnv sampleConfig emptyWorld).1.trace
        = [.sqlOpen ⟨"mysql", mysqlDSN sampleConfig⟩, .ping ⟨"mysql", mysqlDSN sampleConfig⟩,
            .sqlOpen ⟨"postgres", pgDSN sampleConfig⟩, .ping ⟨"postgres", pgDSN sampleConfig⟩]
      ∧ (NewMigrator targetDownEnv sampleConfig emptyWorld).1.openDBs
        = [⟨"mysql", mysqlDSN sampleConfig⟩, ⟨"postgres", pgDSN sampleConfig⟩] := by
  simp [NewMigrator, sqlOpen, dbPing, targetDownEnv, happyEnv, envWith, sampleConfig,
    emptyWorld, World.emit]

/-! ## The run as a whole -/

/-- The method `Close` only adds `Close` calls on handles to the trace and
leaves tables and log alone. -/
theorem Close_fields (m : Migrator) (w : World) :
    (∃ cl, (m.Close w).trace = w.trace ++ cl ∧ ∀ e ∈ cl, e.isClose = true)
      ∧ (m.Close w).tenant_info = w.tenant_info
      ∧ (m.Close w).config_info = w.config_info
      ∧ (m.Close w).log = w.log := by
  obtain ⟨a, b, c⟩ := m
  cases a with
  | none =>
    cases b with
    | none => exact ⟨⟨[], by simp [Migrator.Close], by simp⟩, rfl, rfl, rfl⟩
    | some db2 =>
      exact ⟨⟨[.dbClose db2], by simp [Migrator.Close, dbClose], by simp [Event.isClose]⟩,
        rfl, rfl, rfl⟩
  | some db1 =>
    cases b with
    | none =>
      exact ⟨⟨[.dbClose db1], by simp [Migrator.Close, dbClose], by simp [Event.isClose]⟩,
        rfl, rfl, rfl⟩
    | some db2 =>
      exact ⟨⟨[.dbClose db1, .dbClose db2], by simp [Migrator.Close, dbClose],
        by simp [Event.isClose]⟩, rfl, rfl, rfl⟩

theorem tenantEvent_not_onConfigInfo {e : Event}
    (h : tableEvent tenantQuery tenantInsert tenantArgs e) : e.onConfigInfo = false := by
  have hq : tenantQuery ≠ configQuery := by decide
  have hi : tenantInsert ≠ configInsert := by decide
  rcases h with h | h | h | h | h | h | h | h | h | h | ⟨src, h⟩ <;> subst h <;>
    simp [Event.onConfigInfo, hq, hi]

theorem configEvent_not_onTenantInfo {t : Nat} {e : Event}
    (h : tableEvent configQuery configInsert (configArgs t) e) : e.onTenantInfo = false := by
  have hq : configQuery ≠ tenantQuery := by decide
  have hi : configInsert ≠ tenantInsert := by decide
  rcases h with h | h | h | h | h | h | h | h | h | h | ⟨src, h⟩ <;> subst h <;>
    simp [Event.onTenantInfo, hq, hi]

theorem close_not_onTenantInfo {e : Event} (h : e.isClose = true) : e.onTenantInfo = false := by
  cases e <;> simp_all [Event.isClose, Event.onTenantInfo]

/-- The rest of `main` once the session is acquired. -/
theorem main_acquired (env : Env) (configFile : String) (config : Config)
    (w w1 : World) (m : Migrator) (hfile : configFile ≠ "")
    (hload : env.loadConfig configFile = .ok config)
    (hnew : NewMigrator env config w = (w1, .ok m)) :
    main env configFile w
      = match m.MigrateTenantInfo env (tenantStart w1) with
        | (w, some err) => logFatal w ("迁移 tenant_info 表失败: " ++ err.Error)
        | (w, none) =>
          match m.MigrateConfigInfo env (configStart w) with
          | (w, some err) => logFatal w ("迁移 config_info 表失败: " ++ err.Error)
          | (w, none) =>
            (m.Close ((w.println "config_info 表迁移完成").println "所有表迁移完成！"),
              .returned) := by
  simp only [main, hfile, if_false, hload, hnew]
  rfl

/-- C8: in a run that acquired a session, the database calls made after
the acquisition split into a first part, which is exactly what
`MigrateTenantInfo` did, starts with the tenant query and holds every call
on `tenant_info`, and a second part, holding every call on `config_info`.
If the tenant migration returns an error the second part is empty,
`config_info` is untouched, and the run ends fatally with that error as
its last log line.  If the tenant migration returns nil the second part
is what `MigrateConfigInfo` did, run in the world the tenant migration
left, and holds the config query; the run then ends fatally with the
config error as its last log line, or, when the config migration returns
nil too, it returns normally after the `Close` calls.  If the run ends
normally both migrations returned nil and both commits were called and
succeeded. -/
theorem main_tenant_then_config (env : Env) (configFile : String) (config : Config)
    (w w1 : World) (m : Migrator) (hfile : configFile ≠ "")
    (hload : env.loadConfig configFile = .ok config)
    (hnew : NewMigrator env config w = (w1, .ok m)) :
    ∃ A B, (main env configFile w).1.trace = w1.trace ++ A ++ B
      ∧ Event.query tenantQuery ∈ A
      ∧ (∀ e ∈ A, e.onConfigInfo = false)
      ∧ (∀ e ∈ B, e.onTenantInfo = false)
      ∧ (∀ err, (m.MigrateTenantInfo env (tenantStart w1)).2 = some err →
          B = [] ∧ (main env configFile w).2 = .fatal
            ∧ (main env configFile w).1.log.getLast?
                = some ("迁移 tenant_info 表失败: " ++ err.Error)
            ∧ (main env configFile w).1.config_info = w1.config_info)
      ∧ ((main env configFile w).2 = .returned →
          (m.MigrateTenantInfo env (tenantStart w1)).2 = none
            ∧ (m.MigrateConfigInfo env
                (configStart (m.MigrateTenantInfo env (tenantStart w1)).1)).2 = none
            ∧ env.tenant.commitErr = none ∧ env.config.commitErr = none
            ∧ Event.txCommit ∈ A ∧ Event.txCommit ∈ B)
      ∧ A = callsSince (tenantStart w1) (m.MigrateTenantInfo env (tenantStart w1)).1
      ∧ ((m.MigrateTenantInfo env (tenantStart w1)).2 = none →
          Event.query configQuery ∈ B
            ∧ (∀ err, (m.MigrateConfigInfo env
                  (configStart (m.MigrateTenantInfo env (tenantStart w1)).1)).2 = some err →
                B = callsSince (configStart (m.MigrateTenantInfo env (tenantStart w1)).1)
                      (m.MigrateConfigInfo env
                        (configStart (m.MigrateTenantInfo env (tenantStart w1)).1)).1
                  ∧ (main env configFile w).2 = .fatal
                  ∧ (main env configFile w).1.log.getLast?
                      = some ("迁移 config_info 表失败: " ++ err.Error))
            ∧ ((m.MigrateConfigInfo env
                  (configStart (m.MigrateTenantInfo env (tenantStart w1)).1)).2 = none →
                (main env configFile w).2 = .returned
                  ∧ ∃ cl, B = callsSince (configStart (m.MigrateTenantInfo env (tenantStart w1)).1)
                        (m.MigrateConfigInfo env
                          (configStart (m.MigrateTenantInfo env (tenantStart w1)).1)).1 ++ cl
                      ∧ ∀ e ∈ cl, e.isClose = true)) := by
  have hmain := main_acquired env configFile config w w1 m hfile hload hnew
  rw [hmain]
  obtain ⟨⟨A, hA, hAev, hAq⟩, hAcfg, -, -⟩ := tenant_any m env (tenantStart w1)
  have hAnil := tenant_nil m env (tenantStart w1)
  have hstart : (tenantStart w1).trace = w1.trace := rfl
  have hstartc : (tenantStart w1).config_info = w1.config_info := rfl
  have hAeq : callsSince (tenantStart w1) (m.MigrateTenantInfo env (tenantStart w1)).1 = A :=
    callsSince_append (tenantStart w1) _ A hA
  rw [hstart] at hA
  rw [hstartc] at hAcfg
  generalize m.MigrateTenantInfo env (tenantStart w1) = rt at hA hAcfg hAnil hAeq ⊢
  obtain ⟨wt, r⟩ := rt
  cases r with
  | some err =>
    refine ⟨A, [], by simpa [logFatal] using hA, hAq,
      fun e he => tenantEvent_not_onConfigInfo (hAev e he), by simp, ?_, by simp [logFatal],
      hAeq.symm, by simp⟩
    intro err2 herr2
    simp only [Option.some.injEq] at herr2
    subst herr2
    simpa [logFatal] using hAcfg
  | none =>
    simp only at hA hAeq ⊢
    obtain ⟨hAc, hAm, -⟩ := hAnil rfl
    rw [hAeq] at hAm
    obtain ⟨⟨B, hB, hBev, hBq⟩, -, -, -⟩ := config_any m env (configStart wt)
    have hBnil := config_nil m env (configStart wt)
    have hcs : (configStart wt).trace = wt.trace := rfl
    have hBeq : callsSince (configStart wt) (m.MigrateConfigInfo env (configStart wt)).1 = B :=
      callsSince_append (configStart wt) _ B hB
    rw [hcs] at hB
    generalize m.MigrateConfigInfo env (configStart wt) = rc at hB hBnil hBeq ⊢
    obtain ⟨wc, r⟩ := rc
    cases r with
    | some err =>
      simp only at hB hBeq
      refine ⟨A, B, by simp [logFatal, hB, hA], hAq,
        fun e he => tenantEvent_not_onConfigInfo (hAev e he),
        fun e he => configEvent_not_onTenantInfo (hBev e he), by simp, by simp [logFatal],
        hAeq.symm, ?_⟩
      intro _
      refine ⟨hBq, ?_, by simp⟩
      intro err2 herr2
      simp only [Option.some.injEq] at herr2
      subst herr2
      exact ⟨hBeq.symm, by simp [logFatal], by simp [logFatal]⟩
    | none =>
      simp only at hB hBeq ⊢
      obtain ⟨hBc, hBm, -⟩ := hBnil rfl
      rw [hBeq] at hBm
      obtain ⟨⟨cl, hcl, hclev⟩, -, -, -⟩ := Close_fields m
        ((wc.println "config_info 表迁移完成").println "所有表迁移完成！")
      refine ⟨A, B ++ cl, by simp [hcl, hB, hA], hAq,
        fun e he => tenantEvent_not_onConfigInfo (hAev e he), ?_, by simp, ?_, hAeq.symm, ?_⟩
      · intro e he
        rcases List.mem_append.mp he with he | he
        · exact configEvent_not_onTenantInfo (hBev e he)
        · exact close_not_onTenantInfo (hclev e he)
      · intro _
        exact ⟨by trivial, by trivial, hAc, hBc, hAm, List.mem_append_left _ hBm⟩
      · intro _
        refine ⟨List.mem_append_left _ hBq, by simp, ?_⟩
        intro _
        exact ⟨by trivial, cl, by rw [hBeq], hclev⟩

theorem NewMigrator_sample (tenant : TableEnv TenantSrcRow) (config : TableEnv ConfigSrcRow) :
    NewMigrator (envWith tenant config) sampleConfig emptyWorld
      = (acquiredWorld, .ok sampleMigrator) := by
  simp [NewMigrator, sqlOpen, dbPing, envWith, sampleConfig, emptyWorld, World.emit,
    acquiredWorld, sampleMigrator]

theorem happyEnv_tenant_nil :
    (sampleMigrator.MigrateTenantInfo happyEnv (tenantStart acquiredWorld)).2 = none :=
  ((tenant_rowsOk sampleMigrator happyEnv (tenantStart acquiredWorld) sampleTenants
    happyEnv_tenant_errorFree.1).2.2.2.2 happyEnv_tenant_errorFree.2).1

theorem happyEnv_config_nil (w : World) :
    (sampleMigrator.MigrateConfigInfo happyEnv w).2 = none :=
  ((config_rowsOk sampleMigrator happyEnv w sampleConfigs
    happyEnv_config_errorFree.1).2.2.2.2 happyEnv_config_errorFree.2).1

/-- Two runs.  In the run without any error the calls after acquisition
are the tenant migration's, holding the tenant query, followed by the
config migration's, holding the config query, and the `Close` calls, and
the run returns normally.  In the run whose tenant query fails the run
ends fatally with that error and `config_info` is as it was at
acquisition. -/
theorem main_tenant_then_config_witness :
    (∃ A B cl, (main happyEnv "config.yaml" emptyWorld).1.trace = acquiredWorld.trace ++ A ++ B
        ∧ A = callsSince (tenantStart acquiredWorld)
            (sampleMigrator.MigrateTenantInfo happyEnv (tenantStart acquiredWorld)).1
        ∧ B = callsSince
              (configStart
                (sampleMigrator.MigrateTenantInfo happyEnv (tenantStart acquiredWorld)).1)
              (sampleMigrator.MigrateConfigInfo happyEnv
                (configStart
                  (sampleMigrator.MigrateTenantInfo happyEnv (tenantStart acquiredWorld)).1)).1
            ++ cl
        ∧ (∀ e ∈ cl, e.isClose = true)
        ∧ Event.query tenantQuery ∈ A ∧ Event.query configQuery ∈ B
        ∧ (main happyEnv "config.yaml" emptyWorld).2 = .returned)
      ∧ (main tenantQueryFailsEnv "config.yaml" emptyWorld).2 = .fatal
      ∧ (main tenantQueryFailsEnv "config.yaml" emptyWorld).1.log.getLast?
          = some ("迁移 tenant_info 表失败: " ++ (MigErr.queryTenant "table not found").Error)
      ∧ (main tenantQueryFailsEnv "config.yaml" emptyWorld).1.config_info
          = acquiredWorld.config_info := by
  constructor
  · obtain ⟨A, B, htrace, hAq, -, -, -, -, hA, hnil⟩ := main_tenant_then_config happyEnv
      "config.yaml" sampleConfig emptyWorld acquiredWorld sampleMigrator (by decide) rfl
      (NewMigrator_sample _ _)
    obtain ⟨hBq, -, hok⟩ := hnil happyEnv_tenant_nil
    obtain ⟨hret, cl, hB, hcl⟩ := hok (happyEnv_config_nil _)
    exact ⟨A, B, cl, htrace, hA, hB, hcl, hAq, hBq, hret⟩
  · obtain ⟨A, B, -, -, -, -, hfail, -⟩ := main_tenant_then_config tenantQueryFailsEnv
      "config.yaml" sampleConfig emptyWorld acquiredWorld sampleMigrator (by decide) rfl
      (NewMigrator_sample _ _)
    exact (hfail (.queryTenant "table not found") rfl).2

/-- C10: in a run where the tenant migration meets no error and the
config migration then returns an error, whatever its cause, the run ends
fatally, `tenant_info` holds the rows it held at acquisition followed by
the migrated tenant rows, and `config_info` is as it was at acquisition. -/
theorem main_keeps_committed_tenants (env : Env) (configFile : String) (config : Config)
    (w w1 : World) (m : Migrator) (hfile : configFile ≠ "")
    (hload : env.loadConfig configFile = .ok config)
    (hnew : NewMigrator env config w = (w1, .ok m))
    (src : List TenantSrcRow) (ht : env.tenant.ErrorFree src) (err : MigErr)
    (hc : (m.MigrateConfigInfo env
      (configStart (m.MigrateTenantInfo env (tenantStart w1)).1)).2 = some err) :
    (main env configFile w).2 = .fatal
      ∧ (main env configFile w).1.tenant_info = w1.tenant_info ++ src.map tenantRowSpec
      ∧ (main env configFile w).1.config_info = w1.config_info := by
  rw [main_acquired env configFile config w w1 m hfile hload hnew]
  obtain ⟨-, hcfg, -, -, hok⟩ := tenant_rowsOk m env (tenantStart w1) src ht.1
  obtain ⟨hnil, hten, -⟩ := hok ht.2
  have hargs : src.map tenantArgs = src.map tenantRowSpec :=
    List.map_congr_left (fun r _ => tenantArgs_eq r)
  rw [hargs] at hten
  have h1 : (tenantStart w1).tenant_info = w1.tenant_info := rfl
  have h2 : (tenantStart w1).config_info = w1.config_info := rfl
  rw [h1] at hten
  rw [h2] at hcfg
  generalize m.MigrateTenantInfo env (tenantStart w1) = rt at hc hcfg hnil hten ⊢
  obtain ⟨wt, r⟩ := rt
  simp only at hc hcfg hnil hten
  subst hnil
  simp only
  obtain ⟨-, hct, -, hcc⟩ := config_any m env (configStart wt)
  have hcc2 := hcc err hc
  generalize m.MigrateConfigInfo env (configStart wt) = rc at hc hct hcc2 ⊢
  obtain ⟨wc, r⟩ := rc
  simp only at hc hct hcc2
  subst hc
  have h3 : (configStart wt).tenant_info = wt.tenant_info := rfl
  have h4 : (configStart wt).config_info = wt.config_info := rfl
  simp [logFatal, hct, hcc2, h3, h4, hten, hcfg]

theorem configFails_tenant_errorFree : configFailsEnv.tenant.ErrorFree sampleTenants := by
  simp [TableEnv.ErrorFree, TableEnv.RowsOk, configFailsEnv, envWith, okTable]

theorem configFails_config_fails : configFailsEnv.config.FailsAfter
    [⟨some "app.yaml", some "DEFAULT_GROUP", some "a: 1", some "1", some "yaml"⟩]
    (.ok ⟨some "db.json", some "DEFAULT_GROUP", some "x", some "2", none⟩) [] := by
  simp [TableEnv.FailsAfter, configFailsEnv, envWith, okTable, sampleConfigs]

/-- The two tenant rows commit, the insert of the second config row
fails: the tenant rows stay and `config_info` stays empty. -/
theorem main_keeps_committed_tenants_witness :
    (main configFailsEnv "config.yaml" emptyWorld).2 = .fatal
      ∧ (main configFailsEnv "config.yaml" emptyWorld).1.tenant_info
          = [[.text "1", .text "acme", .text "desc"], [.text "2", .text "", .text "x"]]
      ∧ (main configFailsEnv "config.yaml" emptyWorld).1.config_info = [] := by
  obtain ⟨⟨err, herr, -⟩, -⟩ := config_fail sampleMigrator configFailsEnv
    (configStart (sampleMigrator.MigrateTenantInfo configFailsEnv (tenantStart acquiredWorld)).1)
    _ _ _ configFails_config_fails
  exact main_keeps_committed_tenants configFailsEnv "config.yaml" sampleConfig emptyWorld
    acquiredWorld sampleMigrator (by decide) rfl (NewMigrator_sample _ _) sampleTenants
    configFails_tenant_errorFree err herr

/-- C5, at a failing input: the session is acquired and the source query
of `tenant_info` fails.  The run ends through `log.Fatalf`; the deferred
`Close` does not run: the trace holds no `Close` call and both handles are
still open. -/
theorem main_fatal_skips_Close :
    (main tenantQueryFailsEnv "config.yaml" emptyWorld).2 = .fatal
      ∧ (main tenantQueryFailsEnv "config.yaml" emptyWorld).1.trace
        = [.sqlOpen ⟨"mysql", mysqlDSN sampleConfig⟩, .ping ⟨"mysql", mysqlDSN sampleConfig⟩,
            .sqlOpen ⟨"postgres", pgDSN sampleConfig⟩, .ping ⟨"postgres", pgDSN sampleConfig⟩,
            .query tenantQuery]
      ∧ (main tenantQueryFailsEnv "config.yaml" emptyWorld).1.openDBs
        = [⟨"mysql", mysqlDSN sampleConfig⟩, ⟨"postgres", pgDSN sampleConfig⟩] := by
  rw [main_acquired tenantQueryFailsEnv "config.yaml" sampleConfig emptyWorld acquiredWorld
    sampleMigrator (by decide) rfl (NewMigrator_sample _ _)]
  exact ⟨rfl, rfl, rfl⟩

/-- In the run without any error the deferred `Close` does run: both
handles are closed when `main` returns. -/
theorem main_success_closes :
    (main happyEnv "config.yaml" emptyWorld).2 = .returned
      ∧ (main happyEnv "config.yaml" emptyWorld).1.openDBs = [] := by
  rw [main_acquired happyEnv "config.yaml" sampleConfig emptyWorld acquiredWorld
    sampleMigrator (by decide) rfl (NewMigrator_sample _ _)]
  exact ⟨rfl, by decide⟩

end ConfkeeperMigrate
